import Mathlib

/-!
Verification of the workflow step type system and graph validation helpers
of the `inference` repository, together with the usage-tracking merge and
the data-collector workspace-name lookup.

The embedding follows the Python sources:
  * `inference/enterprise/workflows/entities/steps.py`
  * `inference/usage_tracking/collector_utils.py`
  * `inference/core/workflows/core_steps/sinks/roboflow/data_collector.py`

Python values carried by step fields are embedded as `PyVal`; Python
exceptions raised by the validation routines are embedded as constructors of
`VErr`, and each validation routine returns `Except VErr Unit` (`.ok ()`
standing for a run that raised nothing).

The module `inference.enterprise.workflows.entities.validators`, imported by
`steps.py`, is not part of the repository slice; the helper functions taken
from it are modelled from the spec and are marked as such in their doc
comments.
-/

/-- Embedding of the Python values that can appear in step fields:
`None`, booleans, ints, floats (as rationals), strings, lists and dicts. -/
inductive PyVal where
  | none : PyVal
  | bool (b : Bool) : PyVal
  | int (n : ℤ) : PyVal
  | float (q : ℚ) : PyVal
  | str (s : String) : PyVal
  | list (xs : List PyVal) : PyVal
  | dict (xs : List (String × PyVal)) : PyVal

/-- Embedding of the Python exception classes raised by the validation code.
`executionGraphError`, `invalidStepInput` and `variableTypeError` embed the
exception classes of `inference.enterprise.workflows.errors`; `valueError`
embeds `ValueError` raised inside pydantic field validators at construction
time; `indexError` embeds an uncaught Python `IndexError` from a bad list
subscript. Messages are not modelled, only the exception class. -/
inductive VErr where
  | executionGraphError : VErr
  | invalidStepInput : VErr
  | variableTypeError : VErr
  | valueError : VErr
  | indexError : VErr
deriving DecidableEq, Repr

/-- Python `issubclass(type(value), (int, float))` together with the numeric
value: booleans are a subclass of `int` in Python (`True` counts as `1`). -/
def asNumber : PyVal → Option ℚ
  | .bool b => some (if b then 1 else 0)
  | .int n => some (n : ℚ)
  | .float q => some q
  | _ => Option.none

/-- Python truthiness of `None` (used by `is None` checks in the source). -/
def PyVal.isNone : PyVal → Bool
  | .none => true
  | _ => false

/-- Modelled from the spec: `is_selector` of the missing validators module.
The spec says a selector is a reference string recognized among literals by
its prefix/shape (workflow image input, workflow parameter, or step output);
any non-string value is a literal.  Selector strings are the ones starting
with the reference sigil, checked here on the string's character data. -/
def is_selector : PyVal → Bool
  | .str s =>
    match s.data with
    | '$' :: _ => true
    | _ => false
  | _ => false

/-- Modelled from the spec: step types whose output (or whose declared value)
carries the "image" kind: the workflow image input and the crop steps, whose
`crops` output is of kind image. -/
def imageKindProducers : List String :=
  ["InferenceImage", "Crop", "AbsoluteStaticCrop", "RelativeStaticCrop"]

/-- Modelled from the spec: `validate_selector_holds_image` of the missing
validators module.  When the field is the `image` field, the producer the
selector resolved to must be of image kind, otherwise
`InvalidStepInputDetected` is raised. -/
def validate_selector_holds_image (field_name : String) (input_type : String) :
    Except VErr Unit :=
  if field_name = "image" ∧ ¬ imageKindProducers.contains input_type then
    .error .invalidStepInput
  else .ok ()

/-- Modelled from the spec: `validate_selector_is_inference_parameter` of the
missing validators module.  For the fields listed in `applicable_fields`, the
producer must be a workflow parameter (`InferenceParameter`), otherwise
`InvalidStepInputDetected` is raised; other fields are left alone. -/
def validate_selector_is_inference_parameter (field_name : String)
    (input_type : String) (applicable_fields : List String) :
    Except VErr Unit :=
  if applicable_fields.contains field_name ∧ input_type ≠ "InferenceParameter" then
    .error .invalidStepInput
  else .ok ()

/-- Modelled from the spec: step types whose `predictions` output carries a
detections kind, usable by crop / filter / offset / consensus steps. -/
def detectionsKindProducers : List String :=
  ["ObjectDetectionModel", "KeypointsDetectionModel", "InstanceSegmentationModel",
   "DetectionFilter", "DetectionOffset", "DetectionsConsensus"]

/-- Modelled from the spec: `validate_selector_holds_detections` of the
missing validators module.  For the fields listed in `applicable_fields`, the
producer must be a step producing detections, otherwise
`InvalidStepInputDetected` is raised. -/
def validate_selector_holds_detections (field_name : String)
    (input_type : String) (applicable_fields : List String) :
    Except VErr Unit :=
  if applicable_fields.contains field_name ∧
      ¬ detectionsKindProducers.contains input_type then
    .error .invalidStepInput
  else .ok ()

/-- Embedding of the `Operator` enum of `steps.py`. -/
inductive Operator where
  | equal | not_equal | lower_than | greater_than
  | lower_or_equal_than | greater_or_equal_than | in_op
deriving DecidableEq, Repr

/-- Embedding of the `Condition` step of `steps.py`: its pydantic fields.
`operator`, `step_if_true` and `step_if_false` are kept for fidelity though
the selector validation never reads them. -/
structure ConditionS where
  name : String
  left : PyVal
  operator : Operator
  right : PyVal
  step_if_true : String
  step_if_false : String

/-- Python `getattr(self, field_name)` on a `Condition` instance, for the
attributes holding field values. -/
def ConditionS.getField (s : ConditionS) : String → PyVal
  | "left" => s.left
  | "right" => s.right
  | "name" => .str s.name
  | "step_if_true" => .str s.step_if_true
  | "step_if_false" => .str s.step_if_false
  | _ => .none

/-- The body of `Condition.validate_field_selector` after its non-selector
guard: `left`/`right` must not come from an `InferenceImage` producer. -/
def condition_selector_checks (field_name : String) (input_type : String) :
    Except VErr Unit :=
  if (field_name = "left" ∨ field_name = "right") ∧ input_type = "InferenceImage" then
    .error .invalidStepInput
  else .ok ()

/-- Embedding of `Condition.validate_field_selector` (steps.py, lines
575-588): raise `ExecutionGraphError` when the field does not hold a
selector; then raise `InvalidStepInputDetected` when `left`/`right` is fed
from an `InferenceImage` producer.  The `index` argument is unused by the
source. -/
def condition_validate_field_selector (self : ConditionS) (field_name : String)
    (input_type : String) (_index : Option ℤ) : Except VErr Unit :=
  if ¬ is_selector (self.getField field_name) then
    .error .executionGraphError
  else
    condition_selector_checks field_name input_type

/-- Embedding of the Python type tags used by `allowed_types` lists in the
validators module. -/
inductive PyType where
  | noneT | boolT | intT | floatT | strT | listT | dictT
deriving DecidableEq, Repr

/-- Python `issubclass(type(value), t)` for a single allowed type `t`; a
`bool` value is accepted where `int` is allowed because `bool` is a subclass
of `int` in Python. -/
def hasGivenType (value : PyVal) : PyType → Bool
  | .noneT => value.isNone
  | .boolT => match value with | .bool _ => true | _ => false
  | .intT => match value with | .bool _ => true | .int _ => true | _ => false
  | .floatT => match value with | .float _ => true | _ => false
  | .strT => match value with | .str _ => true | _ => false
  | .listT => match value with | .list _ => true | _ => false
  | .dictT => match value with | .dict _ => true | _ => false

/-- Modelled from the spec: `validate_field_has_given_type` of the missing
validators module; raises the supplied error class when the value is of none
of the allowed types. -/
def validate_field_has_given_type (value : PyVal) (allowed_types : List PyType)
    (e : VErr) : Except VErr Unit :=
  if allowed_types.any (hasGivenType value) then .ok () else .error e

/-- Modelled from the spec: `validate_field_is_selector_or_has_given_type` of
the missing validators module; the construction-time variant raising
`ValueError`. -/
def validate_field_is_selector_or_has_given_type (value : PyVal)
    (allowed_types : List PyType) : Except VErr Unit :=
  if is_selector value then .ok ()
  else validate_field_has_given_type value allowed_types .valueError

/-- Modelled from the spec: `validate_field_is_in_range_zero_one_or_empty_or_selector`
of the missing validators module; a numeric field may hold `None`, a
selector, or a number within `[0, 1]`; anything else raises `ValueError` at
construction. -/
def validate_field_is_in_range_zero_one_or_empty_or_selector (value : PyVal) :
    Except VErr Unit :=
  if is_selector value then .ok ()
  else if value.isNone then .ok ()
  else
    match asNumber value with
    | some q => if 0 ≤ q ∧ q ≤ 1 then .ok () else .error .valueError
    | Option.none => .error .valueError

/-- Modelled from the spec: `validate_value_is_empty_or_number_in_range_zero_one`
of the missing validators module; binding-time variant taking the error
class to raise. -/
def validate_value_is_empty_or_number_in_range_zero_one (value : PyVal)
    (e : VErr) : Except VErr Unit :=
  if value.isNone then .ok ()
  else
    match asNumber value with
    | some q => if 0 ≤ q ∧ q ≤ 1 then .ok () else .error e
    | Option.none => .error e

/-- Modelled from the spec: `validate_value_is_empty_or_positive_number` of
the missing validators module; the value must be `None` or a positive
number. -/
def validate_value_is_empty_or_positive_number (value : PyVal) (e : VErr) :
    Except VErr Unit :=
  if value.isNone then .ok ()
  else
    match asNumber value with
    | some q => if 0 < q then .ok () else .error e
    | Option.none => .error e

/-- Modelled from the spec: `validate_value_is_empty_or_selector_or_positive_number`
of the missing validators module; construction-time, raising `ValueError`. -/
def validate_value_is_empty_or_selector_or_positive_number (value : PyVal) :
    Except VErr Unit :=
  if is_selector value then .ok ()
  else validate_value_is_empty_or_positive_number value .valueError

/-- Python `all(issubclass(type(x), str) for x in value)` over a list. -/
def allStrings : List PyVal → Bool
  | [] => true
  | .str _ :: rest => allStrings rest
  | _ => false

/-- Modelled from the spec: `validate_field_is_list_of_string` of the missing
validators module; the value must be a list whose elements are all strings. -/
def validate_field_is_list_of_string (value : PyVal) (e : VErr) :
    Except VErr Unit :=
  match value with
  | .list xs => if allStrings xs then .ok () else .error e
  | _ => .error e

/-- Modelled from the spec: `validate_field_is_empty_or_selector_or_list_of_string`
of the missing validators module; construction-time, raising `ValueError`. -/
def validate_field_is_empty_or_selector_or_list_of_string (value : PyVal) :
    Except VErr Unit :=
  if value.isNone then .ok ()
  else if is_selector value then .ok ()
  else validate_field_is_list_of_string value .valueError

/-- Modelled from the spec: `validate_field_is_one_of_selected_values` of the
missing validators module; Python `value in selected_values` over a set of
strings (a non-string value is simply not a member). -/
def validate_field_is_one_of_selected_values (value : PyVal)
    (selected_values : List String) (e : VErr) : Except VErr Unit :=
  match value with
  | .str s => if selected_values.contains s then .ok () else .error e
  | _ => .error e

/-- Modelled from the spec: `validate_field_is_selector_or_one_of_values` of
the missing validators module; construction-time, raising `ValueError`. -/
def validate_field_is_selector_or_one_of_values (value : PyVal)
    (selected_values : List String) : Except VErr Unit :=
  if is_selector value then .ok ()
  else validate_field_is_one_of_selected_values value selected_values .valueError

/-- Modelled from the spec: `validate_field_is_list_of_selectors` of the
missing validators module; the value must be a list each of whose elements is
a selector, otherwise `ValueError` is raised. -/
def validate_field_is_list_of_selectors (value : PyVal) : Except VErr Unit :=
  match value with
  | .list xs => if xs.all is_selector then .ok () else .error .valueError
  | _ => .error .valueError

/-- Modelled from the spec: `validate_image_is_valid_selector` of the missing
validators module; an `image` field must hold a selector or a list of
selectors, anything else raises `ValueError` at construction. -/
def validate_image_is_valid_selector (value : PyVal) : Except VErr Unit :=
  match value with
  | .list xs => if xs.all is_selector then .ok () else .error .valueError
  | v => if is_selector v then .ok () else .error .valueError

/-- Modelled from the spec: `validate_image_biding` of the missing validators
module; a bound image value must be an image payload (a dict) or a list of
such payloads, otherwise `VariableTypeError` is raised.  Image
loading/encoding itself is out of the spec's scope. -/
def validate_image_biding (value : PyVal) : Except VErr Unit :=
  match value with
  | .dict _ => .ok ()
  | .list xs => if xs.all (fun v => match v with | .dict _ => true | _ => false)
      then .ok () else .error .variableTypeError
  | _ => .error .variableTypeError

/-- Embedding of the pydantic fields of the model-family steps of `steps.py`
(`RoboflowModel` and its subclasses).  The record carries the union of the
fields of all subclasses; each variant's operations read only the fields that
variant declares. -/
structure MFields where
  name : String
  image : PyVal
  model_id : PyVal
  disable_active_learning : PyVal
  class_agnostic_nms : PyVal
  class_filter : PyVal
  confidence : PyVal
  iou_threshold : PyVal
  max_detections : PyVal
  max_candidates : PyVal
  keypoint_confidence : PyVal
  mask_decode_mode : PyVal
  tradeoff_factor : PyVal

/-- Python `getattr(self, field_name)` on a model-family step instance. -/
def MFields.getField (s : MFields) : String → PyVal
  | "name" => .str s.name
  | "image" => s.image
  | "model_id" => s.model_id
  | "disable_active_learning" => s.disable_active_learning
  | "class_agnostic_nms" => s.class_agnostic_nms
  | "class_filter" => s.class_filter
  | "confidence" => s.confidence
  | "iou_threshold" => s.iou_threshold
  | "max_detections" => s.max_detections
  | "max_candidates" => s.max_candidates
  | "keypoint_confidence" => s.keypoint_confidence
  | "mask_decode_mode" => s.mask_decode_mode
  | "tradeoff_factor" => s.tradeoff_factor
  | _ => .none

/-- The body of `RoboflowModel.validate_field_selector` after its
non-selector guard (steps.py, lines 116-126). -/
def roboflow_selector_checks (field_name input_type : String) :
    Except VErr Unit := do
  validate_selector_holds_image field_name input_type
  validate_selector_is_inference_parameter field_name input_type
    ["model_id", "disable_active_learning"]

/-- Embedding of `RoboflowModel.validate_field_selector` (steps.py, lines
109-126); the `index` argument is accepted and unused by the source. -/
def roboflow_validate_field_selector (self : MFields) (field_name : String)
    (input_type : String) (_index : Option ℤ) : Except VErr Unit :=
  if ¬ is_selector (self.getField field_name) then
    .error .executionGraphError
  else roboflow_selector_checks field_name input_type

/-- The checks performed by `ClassificationModel.validate_field_selector`
once the field is known to hold a selector. -/
def classification_selector_checks (field_name input_type : String) :
    Except VErr Unit := do
  roboflow_selector_checks field_name input_type
  validate_selector_is_inference_parameter field_name input_type ["confidence"]

/-- Embedding of `ClassificationModel.validate_field_selector` (steps.py,
lines 169-178): the base-class validation followed by the parameter check for
`confidence`.  The source forwards to the base class without the index. -/
def classification_validate_field_selector (self : MFields)
    (field_name input_type : String) (_index : Option ℤ) : Except VErr Unit := do
  roboflow_validate_field_selector self field_name input_type Option.none
  validate_selector_is_inference_parameter field_name input_type ["confidence"]

/-- The checks performed by
`MultiLabelClassificationModel.validate_field_selector` once the field is
known to hold a selector. -/
def multi_label_classification_selector_checks (field_name input_type : String) :
    Except VErr Unit := do
  roboflow_selector_checks field_name input_type
  validate_selector_is_inference_parameter field_name input_type ["confidence"]

/-- Embedding of `MultiLabelClassificationModel.validate_field_selector`
(steps.py, lines 212-221). -/
def multi_label_classification_validate_field_selector (self : MFields)
    (field_name input_type : String) (_index : Option ℤ) : Except VErr Unit := do
  roboflow_validate_field_selector self field_name input_type Option.none
  validate_selector_is_inference_parameter field_name input_type ["confidence"]

/-- The parameter fields of `ObjectDetectionModel` eligible for selectors. -/
def objectDetectionParameterFields : List String :=
  ["class_agnostic_nms", "class_filter", "confidence", "iou_threshold",
   "max_detections", "max_candidates"]

/-- The checks performed by `ObjectDetectionModel.validate_field_selector`
once the field is known to hold a selector. -/
def object_detection_selector_checks (field_name input_type : String) :
    Except VErr Unit := do
  roboflow_selector_checks field_name input_type
  validate_selector_is_inference_parameter field_name input_type
    objectDetectionParameterFields

/-- Embedding of `ObjectDetectionModel.validate_field_selector` (steps.py,
lines 304-320). -/
def object_detection_validate_field_selector (self : MFields)
    (field_name input_type : String) (_index : Option ℤ) : Except VErr Unit := do
  roboflow_validate_field_selector self field_name input_type Option.none
  validate_selector_is_inference_parameter field_name input_type
    objectDetectionParameterFields

/-- The checks performed by `KeypointsDetectionModel.validate_field_selector`
once the field is known to hold a selector. -/
def keypoints_selector_checks (field_name input_type : String) :
    Except VErr Unit := do
  object_detection_selector_checks field_name input_type
  validate_selector_is_inference_parameter field_name input_type
    ["keypoint_confidence"]

/-- Embedding of `KeypointsDetectionModel.validate_field_selector` (steps.py,
lines 372-381). -/
def keypoints_validate_field_selector (self : MFields)
    (field_name input_type : String) (_index : Option ℤ) : Except VErr Unit := do
  object_detection_validate_field_selector self field_name input_type Option.none
  validate_selector_is_inference_parameter field_name input_type
    ["keypoint_confidence"]

/-- Embedding of the `DECODE_MODES` constant of `steps.py`. -/
def DECODE_MODES : List String := ["accurate", "tradeoff", "fast"]

/-- The checks performed by
`InstanceSegmentationModel.validate_field_selector` once the field is known
to hold a selector. -/
def instance_segmentation_selector_checks (field_name input_type : String) :
    Except VErr Unit := do
  object_detection_selector_checks field_name input_type
  validate_selector_is_inference_parameter field_name input_type
    ["mask_decode_mode", "tradeoff_factor"]

/-- Embedding of `InstanceSegmentationModel.validate_field_selector`
(steps.py, lines 428-437). -/
def instance_segmentation_validate_field_selector (self : MFields)
    (field_name input_type : String) (_index : Option ℤ) : Except VErr Unit := do
  object_detection_validate_field_selector self field_name input_type Option.none
  validate_selector_is_inference_parameter field_name input_type
    ["mask_decode_mode", "tradeoff_factor"]

/-- Embedding of the pydantic fields of the `OCRModel` step of `steps.py`. -/
structure OCRS where
  name : String
  image : PyVal

/-- Python `getattr(self, field_name)` on an `OCRModel` instance. -/
def OCRS.getField (s : OCRS) : String → PyVal
  | "name" => .str s.name
  | "image" => s.image
  | _ => .none

/-- The body of `OCRModel.validate_field_selector` after its non-selector
guard. -/
def ocr_selector_checks (field_name input_type : String) : Except VErr Unit :=
  validate_selector_holds_image field_name input_type

/-- Embedding of `OCRModel.validate_field_selector` (steps.py, lines
467-478). -/
def ocr_validate_field_selector (self : OCRS) (field_name : String)
    (input_type : String) (_index : Option ℤ) : Except VErr Unit :=
  if ¬ is_selector (self.getField field_name) then
    .error .executionGraphError
  else ocr_selector_checks field_name input_type

/-- Embedding of the pydantic fields of the `Crop` step of `steps.py`. -/
structure CropS where
  name : String
  image : PyVal
  detections : PyVal

/-- Python `getattr(self, field_name)` on a `Crop` instance. -/
def CropS.getField (s : CropS) : String → PyVal
  | "name" => .str s.name
  | "image" => s.image
  | "detections" => s.detections
  | _ => .none

/-- The body of `Crop.validate_field_selector` after its non-selector
guard. -/
def crop_selector_checks (field_name input_type : String) : Except VErr Unit := do
  validate_selector_holds_image field_name input_type
  validate_selector_holds_detections field_name input_type ["detections"]

/-- Embedding of `Crop.validate_field_selector` (steps.py, lines 522-540). -/
def crop_validate_field_selector (self : CropS) (field_name : String)
    (input_type : String) (_index : Option ℤ) : Except VErr Unit :=
  if ¬ is_selector (self.getField field_name) then
    .error .executionGraphError
  else crop_selector_checks field_name input_type

/-- Embedding of the `BinaryOperator` enum of `steps.py`. -/
inductive BinaryOperator where
  | or_op | and_op
deriving DecidableEq, Repr

/-- Embedding of `DetectionFilterDefinition` of `steps.py`: a leaf filter
predicate. -/
structure DetectionFilterDefinition where
  field_name : String
  operator : Operator
  reference_value : PyVal

/-- Embedding of `CompoundDetectionFilterDefinition` of `steps.py`: a binary
combination of two leaf predicates. -/
structure CompoundDetectionFilterDefinition where
  left : DetectionFilterDefinition
  operator : BinaryOperator
  right : DetectionFilterDefinition

/-- The discriminated union held by `DetectionFilter.filter_definition`. -/
inductive FilterDefinition where
  | simple (d : DetectionFilterDefinition) : FilterDefinition
  | compound (d : CompoundDetectionFilterDefinition) : FilterDefinition

/-- Embedding of the pydantic fields of the `DetectionFilter` step of
`steps.py`. -/
structure DetectionFilterS where
  name : String
  predictions : PyVal
  filter_definition : FilterDefinition

/-- Python `getattr(self, field_name)` on a `DetectionFilter` instance. -/
def DetectionFilterS.getField (s : DetectionFilterS) : String → PyVal
  | "name" => .str s.name
  | "predictions" => s.predictions
  | _ => .none

/-- The body of `DetectionFilter.validate_field_selector` after its
non-selector guard. -/
def detection_filter_selector_checks (field_name input_type : String) :
    Except VErr Unit :=
  validate_selector_holds_detections field_name input_type ["predictions"]

/-- Embedding of `DetectionFilter.validate_field_selector` (steps.py, lines
628-642). -/
def detection_filter_validate_field_selector (self : DetectionFilterS)
    (field_name : String) (input_type : String) (_index : Option ℤ) :
    Except VErr Unit :=
  if ¬ is_selector (self.getField field_name) then
    .error .executionGraphError
  else detection_filter_selector_checks field_name input_type

/-- Embedding of the pydantic fields of the `DetectionOffset` step of
`steps.py`. -/
structure DetectionOffsetS where
  name : String
  predictions : PyVal
  offset_x : PyVal
  offset_y : PyVal

/-- Python `getattr(self, field_name)` on a `DetectionOffset` instance. -/
def DetectionOffsetS.getField (s : DetectionOffsetS) : String → PyVal
  | "name" => .str s.name
  | "predictions" => s.predictions
  | "offset_x" => s.offset_x
  | "offset_y" => s.offset_y
  | _ => .none

/-- The body of `DetectionOffset.validate_field_selector` after its
non-selector guard. -/
def detection_offset_selector_checks (field_name input_type : String) :
    Except VErr Unit := do
  validate_selector_holds_detections field_name input_type ["predictions"]
  validate_selector_is_inference_parameter field_name input_type
    ["offset_x", "offset_y"]

/-- Embedding of `DetectionOffset.validate_field_selector` (steps.py, lines
664-684). -/
def detection_offset_validate_field_selector (self : DetectionOffsetS)
    (field_name : String) (input_type : String) (_index : Option ℤ) :
    Except VErr Unit :=
  if ¬ is_selector (self.getField field_name) then
    .error .executionGraphError
  else detection_offset_selector_checks field_name input_type

/-- Embedding of the pydantic fields of the `AbsoluteStaticCrop` and
`RelativeStaticCrop` steps of `steps.py` (same field names). -/
structure StaticCropS where
  name : String
  image : PyVal
  x_center : PyVal
  y_center : PyVal
  width : PyVal
  height : PyVal

/-- Python `getattr(self, field_name)` on a static-crop step instance. -/
def StaticCropS.getField (s : StaticCropS) : String → PyVal
  | "name" => .str s.name
  | "image" => s.image
  | "x_center" => s.x_center
  | "y_center" => s.y_center
  | "width" => s.width
  | "height" => s.height
  | _ => .none

/-- The coordinate fields of the static-crop steps. -/
def staticCropCoordinateFields : List String :=
  ["x_center", "y_center", "width", "height"]

/-- The body of `AbsoluteStaticCrop.validate_field_selector` after its
non-selector guard. -/
def absolute_static_crop_selector_checks (field_name input_type : String) :
    Except VErr Unit := do
  validate_selector_holds_image field_name input_type
  validate_selector_is_inference_parameter field_name input_type
    staticCropCoordinateFields

/-- Embedding of `AbsoluteStaticCrop.validate_field_selector` (steps.py,
lines 731-748). -/
def absolute_static_crop_validate_field_selector (self : StaticCropS)
    (field_name : String) (input_type : String) (_index : Option ℤ) :
    Except VErr Unit :=
  if ¬ is_selector (self.getField field_name) then
    .error .executionGraphError
  else absolute_static_crop_selector_checks field_name input_type

/-- The body of `RelativeStaticCrop.validate_field_selector` after its
non-selector guard. -/
def relative_static_crop_selector_checks (field_name input_type : String) :
    Except VErr Unit := do
  validate_selector_holds_image field_name input_type
  validate_selector_is_inference_parameter field_name input_type
    staticCropCoordinateFields

/-- Embedding of `RelativeStaticCrop.validate_field_selector` (steps.py,
lines 796-813). -/
def relative_static_crop_validate_field_selector (self : StaticCropS)
    (field_name : String) (input_type : String) (_index : Option ℤ) :
    Except VErr Unit :=
  if ¬ is_selector (self.getField field_name) then
    .error .executionGraphError
  else relative_static_crop_selector_checks field_name input_type

/-- Embedding of the pydantic fields of the `ClipComparison` step of
`steps.py`. -/
structure ClipComparisonS where
  name : String
  image : PyVal
  text : PyVal

/-- Python `getattr(self, field_name)` on a `ClipComparison` instance. -/
def ClipComparisonS.getField (s : ClipComparisonS) : String → PyVal
  | "name" => .str s.name
  | "image" => s.image
  | "text" => s.text
  | _ => .none

/-- The body of `ClipComparison.validate_field_selector` after its
non-selector guard. -/
def clip_comparison_selector_checks (field_name input_type : String) :
    Except VErr Unit := do
  validate_selector_holds_image field_name input_type
  validate_selector_is_inference_parameter field_name input_type ["text"]

/-- Embedding of `ClipComparison.validate_field_selector` (steps.py, lines
850-867). -/
def clip_comparison_validate_field_selector (self : ClipComparisonS)
    (field_name : String) (input_type : String) (_index : Option ℤ) :
    Except VErr Unit :=
  if ¬ is_selector (self.getField field_name) then
    .error .executionGraphError
  else clip_comparison_selector_checks field_name input_type

/-- Embedding of the `AggregationMode` enum of `steps.py`. -/
inductive AggregationMode where
  | average | maxMode | minMode
deriving DecidableEq, Repr

/-- Embedding of the pydantic fields of the `DetectionsConsensus` step of
`steps.py`.  `predictions` is kept at its pydantic-checked type
`List[str]`. -/
structure ConsensusS where
  name : String
  predictions : List String
  required_votes : PyVal
  class_aware : PyVal
  iou_threshold : PyVal
  confidence : PyVal
  classes_to_consider : PyVal
  required_objects : PyVal
  presence_confidence_aggregation : AggregationMode
  detections_merge_confidence_aggregation : AggregationMode
  detections_merge_coordinates_aggregation : AggregationMode

/-- Python `getattr(self, field_name)` on a `DetectionsConsensus`
instance. -/
def ConsensusS.getField (s : ConsensusS) : String → PyVal
  | "name" => .str s.name
  | "predictions" => .list (s.predictions.map .str)
  | "required_votes" => s.required_votes
  | "class_aware" => s.class_aware
  | "iou_threshold" => s.iou_threshold
  | "confidence" => s.confidence
  | "classes_to_consider" => s.classes_to_consider
  | "required_objects" => s.required_objects
  | _ => .none

/-- Python list subscription `xs[i]` with an `int` index: indices in
`[0, len)` select directly, indices in `[-len, 0)` select from the end, and
anything else raises `IndexError` (`Option.none` here). -/
def pyIndex (xs : List String) (i : ℤ) : Option String :=
  if 0 ≤ i ∧ i < (xs.length : ℤ) then xs.get? i.toNat
  else if -(xs.length : ℤ) ≤ i ∧ i < 0 then xs.get? ((xs.length : ℤ) + i).toNat
  else Option.none

/-- The single-valued parameter fields of `DetectionsConsensus` eligible for
selectors. -/
def consensusParameterFields : List String :=
  ["required_votes", "class_aware", "iou_threshold", "confidence",
   "classes_to_consider", "required_objects"]

/-- The parameter check reached by
`DetectionsConsensus.validate_field_selector` for single-valued fields
holding a selector. -/
def consensus_param_checks (field_name input_type : String) :
    Except VErr Unit :=
  validate_selector_is_inference_parameter field_name input_type
    consensusParameterFields

/-- Embedding of `DetectionsConsensus.validate_field_selector` (steps.py,
lines 1017-1059).  For `predictions` the source rejects a missing index and
an index strictly greater than the list length with `ExecutionGraphError`,
then subscripts the list: an index equal to the length escapes the guard and
the subscript raises an uncaught Python `IndexError`, embedded as
`.error .indexError`. -/
def consensus_validate_field_selector (self : ConsensusS) (field_name : String)
    (input_type : String) (index : Option ℤ) : Except VErr Unit :=
  if field_name ≠ "predictions" ∧ ¬ is_selector (self.getField field_name) then
    .error .executionGraphError
  else if field_name = "predictions" then
    match index with
    | Option.none => .error .executionGraphError
    | some i =>
      if i > (self.predictions.length : ℤ) then .error .executionGraphError
      else
        match pyIndex self.predictions i with
        | Option.none => .error .indexError
        | some sel =>
          if ¬ is_selector (.str sel) then .error .executionGraphError
          else validate_selector_holds_detections field_name input_type
            ["predictions"]
  else consensus_param_checks field_name input_type

/-- The pydantic field validators declared on `RoboflowModel` (steps.py,
lines 74-98), run at construction on the raw field values. -/
def roboflow_construction_validators (f : MFields) : Except VErr Unit := do
  validate_image_is_valid_selector f.image
  validate_field_is_selector_or_has_given_type f.model_id [.strT]
  validate_field_is_selector_or_has_given_type f.disable_active_learning
    [.noneT, .boolT]

/-- Construction-time validation of a `ClassificationModel` step: the
inherited `RoboflowModel` validators plus the `confidence` validator
(steps.py, lines 151-157). -/
def classification_model_construct (f : MFields) : Except VErr Unit := do
  roboflow_construction_validators f
  validate_field_is_in_range_zero_one_or_empty_or_selector f.confidence

/-- Construction-time validation of a `MultiLabelClassificationModel` step
(steps.py, lines 194-200). -/
def multi_label_classification_model_construct (f : MFields) :
    Except VErr Unit := do
  roboflow_construction_validators f
  validate_field_is_in_range_zero_one_or_empty_or_selector f.confidence

/-- Construction-time validation of an `ObjectDetectionModel` step: inherited
validators plus the validators of steps.py, lines 242-283. -/
def object_detection_model_construct (f : MFields) : Except VErr Unit := do
  roboflow_construction_validators f
  validate_field_is_selector_or_has_given_type f.class_agnostic_nms
    [.noneT, .boolT]
  validate_field_is_empty_or_selector_or_list_of_string f.class_filter
  validate_field_is_in_range_zero_one_or_empty_or_selector f.confidence
  validate_field_is_in_range_zero_one_or_empty_or_selector f.iou_threshold
  validate_value_is_empty_or_selector_or_positive_number f.max_detections
  validate_value_is_empty_or_selector_or_positive_number f.max_candidates

/-- Construction-time validation of a `KeypointsDetectionModel` step:
inherited validators plus the `keypoint_confidence` validator (steps.py,
lines 357-365). -/
def keypoints_detection_model_construct (f : MFields) : Except VErr Unit := do
  object_detection_model_construct f
  validate_field_is_in_range_zero_one_or_empty_or_selector f.keypoint_confidence

/-- Construction-time validation of an `InstanceSegmentationModel` step:
inherited validators plus the `mask_decode_mode` and `tradeoff_factor`
validators (steps.py, lines 401-421). -/
def instance_segmentation_model_construct (f : MFields) : Except VErr Unit := do
  object_detection_model_construct f
  validate_field_is_selector_or_one_of_values f.mask_decode_mode DECODE_MODES
  validate_field_is_in_range_zero_one_or_empty_or_selector f.tradeoff_factor

/-- The raw field values handed to `DetectionsConsensus` at construction,
before pydantic checks them. -/
structure ConsensusFields where
  name : String
  predictions : PyVal
  required_votes : PyVal
  class_aware : PyVal
  iou_threshold : PyVal
  confidence : PyVal
  classes_to_consider : PyVal
  required_objects : PyVal

/-- Embedding of `DetectionsConsensus.predictions_must_be_list_of_selectors`
(steps.py, lines 921-929): every element must be a selector, and the list
must have at least one element.  The length check is only reached on lists,
the first validator having rejected everything else. -/
def consensus_predictions_validator (value : PyVal) : Except VErr Unit := do
  validate_field_is_list_of_selectors value
  match value with
  | .list xs => if xs.length < 1 then .error .valueError else .ok ()
  | _ => .ok ()

/-- Embedding of
`DetectionsConsensus.required_votes_must_be_selector_or_positive_integer`
(steps.py, lines 931-941). -/
def consensus_required_votes_validator (value : PyVal) : Except VErr Unit :=
  if value.isNone then .error .valueError
  else validate_value_is_empty_or_selector_or_positive_number value

/-- Embedding of the shared `iou_threshold` / `confidence` validator of
`DetectionsConsensus` (steps.py, lines 951-961). -/
def consensus_iou_conf_validator (value : PyVal) : Except VErr Unit :=
  if value.isNone then .error .valueError
  else validate_field_is_in_range_zero_one_or_empty_or_selector value

/-- The per-entry loop of
`DetectionsConsensus.required_objects_field_must_be_valid` over a dict value:
no entry may be `None` and every entry must be a positive number. -/
def requiredObjectsDictCheck (e : VErr) :
    List (String × PyVal) → Except VErr Unit
  | [] => .ok ()
  | (_, v) :: rest =>
    if v.isNone then .error e
    else do
      validate_value_is_empty_or_positive_number v e
      requiredObjectsDictCheck e rest

/-- Embedding of `DetectionsConsensus.required_objects_field_must_be_valid`
(steps.py, lines 973-995). -/
def consensus_required_objects_validator (value : PyVal) : Except VErr Unit :=
  if value.isNone then .ok ()
  else do
    validate_field_is_selector_or_has_given_type value [.intT, .dictT]
    match value with
    | .int _ => validate_value_is_empty_or_positive_number value .valueError
    | .bool _ => validate_value_is_empty_or_positive_number value .valueError
    | .dict xs => requiredObjectsDictCheck .valueError xs
    | _ => .ok ()

/-- Construction-time validation of a `DetectionsConsensus` step: the
pydantic field validators of steps.py, lines 921-995, in declaration
order. -/
def detections_consensus_construct (f : ConsensusFields) : Except VErr Unit := do
  consensus_predictions_validator f.predictions
  consensus_required_votes_validator f.required_votes
  validate_field_is_selector_or_has_given_type f.class_aware [.boolT]
  consensus_iou_conf_validator f.iou_threshold
  consensus_iou_conf_validator f.confidence
  validate_field_is_empty_or_selector_or_list_of_string f.classes_to_consider
  consensus_required_objects_validator f.required_objects

/-- Embedding of `RoboflowModel.validate_field_binding` (steps.py, lines
128-144). -/
def roboflow_validate_field_binding (field_name : String) (value : PyVal) :
    Except VErr Unit :=
  if field_name = "image" then validate_image_biding value
  else if field_name = "model_id" then
    validate_field_has_given_type value [.strT] .variableTypeError
  else if field_name = "disable_active_learning" then
    validate_field_has_given_type value [.boolT] .variableTypeError
  else .ok ()

/-- Embedding of `ObjectDetectionModel.validate_field_binding` (steps.py,
lines 322-350): the base-class binding checks, the unconditional `None`
rejection, then the per-field checks. -/
def object_detection_validate_field_binding (field_name : String)
    (value : PyVal) : Except VErr Unit := do
  roboflow_validate_field_binding field_name value
  if value.isNone then .error .variableTypeError
  else if field_name = "class_agnostic_nms" then
    validate_field_has_given_type value [.boolT] .variableTypeError
  else if field_name = "class_filter" then
    if value.isNone then .ok ()
    else validate_field_is_list_of_string value .variableTypeError
  else if field_name = "confidence" ∨ field_name = "iou_threshold" then
    validate_value_is_empty_or_number_in_range_zero_one value .variableTypeError
  else if field_name = "max_detections" ∨ field_name = "max_candidates" then
    validate_value_is_empty_or_positive_number value .variableTypeError
  else .ok ()

/-- Embedding of `InstanceSegmentationModel.validate_field_binding`
(steps.py, lines 439-453). -/
def instance_segmentation_validate_field_binding (field_name : String)
    (value : PyVal) : Except VErr Unit := do
  object_detection_validate_field_binding field_name value
  if field_name = "mask_decode_mode" then
    validate_field_is_one_of_selected_values value DECODE_MODES
      .variableTypeError
  else if field_name = "tradeoff_factor" then
    validate_value_is_empty_or_number_in_range_zero_one value .variableTypeError
  else .ok ()

/-- Python `round` on a rational: round half to even (banker's rounding). -/
def pyRoundQ (q : ℚ) : ℤ :=
  if Int.fract q < 1/2 then ⌊q⌋
  else if 1/2 < Int.fract q then ⌊q⌋ + 1
  else if ⌊q⌋ % 2 = 0 then ⌊q⌋ else ⌊q⌋ + 1

/-- Python `round(value)` on a numeric `PyVal` (ints round to themselves,
booleans to their `int` value, floats half-to-even); the source only applies
it to numeric values, so other values are returned unchanged here. -/
def pyRound : PyVal → PyVal
  | .int n => .int n
  | .bool b => .int (if b then 1 else 0)
  | .float q => .int (pyRoundQ q)
  | v => v

/-- Python `==` restricted to numeric operands (the only use in the source
compares a numeric field value with its rounding). -/
def pyNumEq (a b : PyVal) : Bool :=
  match asNumber a, asNumber b with
  | some x, some y => decide (x = y)
  | _, _ => false

/-- Embedding of `AbsoluteStaticCrop.validate_field_binding` (steps.py, lines
750-759): coordinate fields must be an `int` or `float` equal to their own
rounding, otherwise `VariableTypeError`. -/
def absolute_static_crop_validate_field_binding (field_name : String)
    (value : PyVal) : Except VErr Unit := do
  if field_name = "image" then validate_image_biding value else .ok ()
  if staticCropCoordinateFields.contains field_name then
    if (asNumber value).isNone ∨ ¬ pyNumEq value (pyRound value) then
      .error .variableTypeError
    else .ok ()
  else .ok ()

/-- Embedding of the values stored in usage payload dicts of
`collector_utils.py`: numbers (timestamps, counters, durations) and strings
(identifiers). -/
inductive UVal where
  | num (q : ℚ) : UVal
  | vstr (s : String) : UVal
deriving DecidableEq, Repr

/-- A usage payload dict: association list with leftmost-key-wins lookup. -/
abbrev UDict := List (String × UVal)

/-- Python `a < b` on usage values; `Option.none` embeds the `TypeError`
Python raises on incomparable operands. -/
def uLt : UVal → UVal → Option Bool
  | .num a, .num b => some (decide (a < b))
  | .vstr a, .vstr b => some (decide (a < b))
  | _, _ => Option.none

/-- Python `min(a, b)`: returns `b` when `b < a`, else `a`. -/
def pyMinU (a b : UVal) : Option UVal :=
  (uLt b a).map (fun c => if c then b else a)

/-- Python `max(a, b)`: returns `b` when `a < b`, else `a`. -/
def pyMaxU (a b : UVal) : Option UVal :=
  (uLt a b).map (fun c => if c then b else a)

/-- Python `a + b` on usage values (numeric addition or string
concatenation); `Option.none` embeds `TypeError` on mixed operands. -/
def uAdd : UVal → UVal → Option UVal
  | .num a, .num b => some (.num (a + b))
  | .vstr a, .vstr b => some (.vstr (a ++ b))
  | _, _ => Option.none

/-- The errors `merge_usage_dicts` can raise: the explicit `ValueError` for
mismatched resource ids, and a `TypeError` from combining incompatible
values. -/
inductive UErr where
  | valueError : UErr
  | typeError : UErr
deriving DecidableEq, Repr

/-- One reconciliation line of `merge_usage_dicts`: when key `k` is present
in both dicts, combine the two values with `f` into a singleton update,
otherwise contribute nothing. -/
def combineCommonKey (k : String) (f : UVal → UVal → Option UVal)
    (d1 d2 : UDict) : Except UErr UDict :=
  match List.lookup k d1, List.lookup k d2 with
  | some a, some b =>
    match f a b with
    | some v => .ok [(k, v)]
    | Option.none => .error .typeError
  | _, _ => .ok []

/-- Embedding of `merge_usage_dicts` (collector_utils.py, lines 14-26):
raise `ValueError` when both dicts are truthy (non-empty) and disagree on
`resource_id`; otherwise return `{**d1, **d2, **merged}` where `merged`
reconciles `timestamp_start` (min), `timestamp_stop` (max),
`processed_frames` (sum) and `source_duration` (sum) for keys present in
both.  In the returned association list later entries of the Python dict
union come first, so lookup prefers `merged`, then `d2`, then `d1`. -/
def merge_usage_dicts (d1 d2 : UDict) : Except UErr UDict :=
  if d1 ≠ [] ∧ d2 ≠ [] ∧
      List.lookup "resource_id" d1 ≠ List.lookup "resource_id" d2 then
    .error .valueError
  else do
    let m1 ← combineCommonKey "timestamp_start" pyMinU d1 d2
    let m2 ← combineCommonKey "timestamp_stop" pyMaxU d1 d2
    let m3 ← combineCommonKey "processed_frames" uAdd d1 d2
    let m4 ← combineCommonKey "source_duration" uAdd d1 d2
    .ok (((m4 ++ m3) ++ (m2 ++ m1)) ++ (d2 ++ d1))

/-- The workspace-name cache of `data_collector.py`: string keys to string
values, newest entry first; the expiry argument of `cache.set` is not
modelled. -/
structure WCache where
  entries : List (String × String)

/-- `cache.get(key)` of `data_collector.py`'s `BaseCache`. -/
def WCache.get (c : WCache) (k : String) : Option String :=
  List.lookup k c.entries

/-- `cache.set(key, value, expire)` of `data_collector.py`'s `BaseCache`. -/
def WCache.set (c : WCache) (k v : String) : WCache :=
  ⟨(k, v) :: c.entries⟩

/-- Python truthiness of an `Optional[str]`: `None` and the empty string are
falsy. -/
def truthyOptStr : Option String → Bool
  | some s => ¬ s.isEmpty
  | Option.none => false

/-- Embedding of `get_workspace_name` (data_collector.py, lines 384-396).
The `hashlib.md5` hex digest and the `get_roboflow_workspace` API call are
external collaborators and are passed in as function parameters.  On a
truthy cache hit the cached name is returned unchanged; on a miss the
workspace name is fetched and stored, and the function falls off its end,
returning Python `None` (`Option.none`). -/
def get_workspace_name (md5hex fetchWorkspace : String → String)
    (api_key : String) (cache : WCache) : Option String × WCache :=
  let cache_key := "workflows:api_key_to_workspace:" ++ md5hex api_key
  let cached_workspace_name := cache.get cache_key
  if truthyOptStr cached_workspace_name then (cached_workspace_name, cache)
  else
    let workspace_name_from_api := fetchWorkspace api_key
    (Option.none, cache.set cache_key workspace_name_from_api)

/-- Whether a validation run raised an exception. -/
def isErr : Except VErr Unit → Bool
  | .error _ => true
  | .ok _ => false

/-- Concrete model-family field values that pass every construction
validator, with the `confidence` slot left open. -/
def goodModelFields (confidence : PyVal) : MFields :=
  ⟨"step_1", .str "$inputs.image", .str "project/1", .bool false, .bool false,
   .none, confidence, .float 1, .int 300, .int 3000, .float 0,
   .str "accurate", .float 0⟩

/-- Concrete model-family field values that pass every construction
validator, with the `mask_decode_mode` slot left open. -/
def goodSegFields (mask_decode_mode : String) : MFields :=
  ⟨"step_1", .str "$inputs.image", .str "project/1", .bool false, .bool false,
   .none, .float 0, .float 1, .int 300, .int 3000, .float 0,
   .str mask_decode_mode, .float 0⟩
/-- C2: for the Condition step, given that the field `left` (or `right`)
holds a selector, `validate_field_selector` fails with
`InvalidStepInputDetected` exactly when the resolved producer is of type
`InferenceImage`, and succeeds for every producer of any other type. -/
theorem condition_left_right_image_exclusion
    (self : ConditionS) (field_name input_type : String) (idx : Option ℤ)
    (hf : field_name = "left" ∨ field_name = "right")
    (hsel : is_selector (self.getField field_name) = true) :
    (condition_validate_field_selector self field_name input_type idx =
        .error .invalidStepInput ↔ input_type = "InferenceImage") ∧
    (input_type ≠ "InferenceImage" →
      condition_validate_field_selector self field_name input_type idx = .ok ()) := by
  by_cases h : input_type = "InferenceImage" <;>
    rcases hf with rfl | rfl <;>
    simp [condition_validate_field_selector, condition_selector_checks, hsel, h]

/-- Witness for `condition_left_right_image_exclusion` at a concrete
condition step and producer. -/
theorem condition_left_right_image_exclusion_witness :
    condition_validate_field_selector
      ⟨"cond", .str "$steps.a.top", .equal, .str "cat", "s1", "s2"⟩
      "left" "InferenceImage" Option.none = .error .invalidStepInput := by
  have h := condition_left_right_image_exclusion
    ⟨"cond", .str "$steps.a.top", .equal, .str "cat", "s1", "s2"⟩
    "left" "InferenceImage" Option.none (Or.inl rfl) (by decide)
  exact h.1.mpr rfl

/-- C8: for every step variant, `validate_field_selector` on a single-valued
field raises `ExecutionGraphError` whenever the field's stored value is not a
selector, and the kind-compatibility checks against the producer are reached
exactly when the field does hold a selector. -/
theorem selector_guard_before_kind_checks :
    (∀ (s : MFields) (f i : String) (x : Option ℤ),
      (is_selector (s.getField f) = false →
        roboflow_validate_field_selector s f i x = .error .executionGraphError) ∧
      (is_selector (s.getField f) = true →
        roboflow_validate_field_selector s f i x = roboflow_selector_checks f i)) ∧
    (∀ (s : MFields) (f i : String) (x : Option ℤ),
      (is_selector (s.getField f) = false →
        classification_validate_field_selector s f i x = .error .executionGraphError) ∧
      (is_selector (s.getField f) = true →
        classification_validate_field_selector s f i x = classification_selector_checks f i)) ∧
    (∀ (s : MFields) (f i : String) (x : Option ℤ),
      (is_selector (s.getField f) = false →
        multi_label_classification_validate_field_selector s f i x = .error .executionGraphError) ∧
      (is_selector (s.getField f) = true →
        multi_label_classification_validate_field_selector s f i x = multi_label_classification_selector_checks f i)) ∧
    (∀ (s : MFields) (f i : String) (x : Option ℤ),
      (is_selector (s.getField f) = false →
        object_detection_validate_field_selector s f i x = .error .executionGraphError) ∧
      (is_selector (s.getField f) = true →
        object_detection_validate_field_selector s f i x = object_detection_selector_checks f i)) ∧
    (∀ (s : MFields) (f i : String) (x : Option ℤ),
      (is_selector (s.getField f) = false →
        keypoints_validate_field_selector s f i x = .error .executionGraphError) ∧
      (is_selector (s.getField f) = true →
        keypoints_validate_field_selector s f i x = keypoints_selector_checks f i)) ∧
    (∀ (s : MFields) (f i : String) (x : Option ℤ),
      (is_selector (s.getField f) = false →
        instance_segmentation_validate_field_selector s f i x = .error .executionGraphError) ∧
      (is_selector (s.getField f) = true →
        instance_segmentation_validate_field_selector s f i x = instance_segmentation_selector_checks f i)) ∧
    (∀ (s : OCRS) (f i : String) (x : Option ℤ),
      (is_selector (s.getField f) = false →
        ocr_validate_field_selector s f i x = .error .executionGraphError) ∧
      (is_selector (s.getField f) = true →
        ocr_validate_field_selector s f i x = ocr_selector_checks f i)) ∧
    (∀ (s : CropS) (f i : String) (x : Option ℤ),
      (is_selector (s.getField f) = false →
        crop_validate_field_selector s f i x = .error .executionGraphError) ∧
      (is_selector (s.getField f) = true →
        crop_validate_field_selector s f i x = crop_selector_checks f i)) ∧
    (∀ (s : ConditionS) (f i : String) (x : Option ℤ),
      (is_selector (s.getField f) = false →
        condition_validate_field_selector s f i x = .error .executionGraphError) ∧
      (is_selector (s.getField f) = true →
        condition_validate_field_selector s f i x = condition_selector_checks f i)) ∧
    (∀ (s : DetectionFilterS) (f i : String) (x : Option ℤ),
      (is_selector (s.getField f) = false →
        detection_filter_validate_field_selector s f i x = .error .executionGraphError) ∧
      (is_selector (s.getField f) = true →
        detection_filter_validate_field_selector s f i x = detection_filter_selector_checks f i)) ∧
    (∀ (s : DetectionOffsetS) (f i : String) (x : Option ℤ),
      (is_selector (s.getField f) = false →
        detection_offset_validate_field_selector s f i x = .error .executionGraphError) ∧
      (is_selector (s.getField f) = true →
        detection_offset_validate_field_selector s f i x = detection_offset_selector_checks f i)) ∧
    (∀ (s : StaticCropS) (f i : String) (x : Option ℤ),
      (is_selector (s.getField f) = false →
        absolute_static_crop_validate_field_selector s f i x = .error .executionGraphError) ∧
      (is_selector (s.getField f) = true →
        absolute_static_crop_validate_field_selector s f i x = absolute_static_crop_selector_checks f i)) ∧
    (∀ (s : StaticCropS) (f i : String) (x : Option ℤ),
      (is_selector (s.getField f) = false →
        relative_static_crop_validate_field_selector s f i x = .error .executionGraphError) ∧
      (is_selector (s.getField f) = true →
        relative_static_crop_validate_field_selector s f i x = relative_static_crop_selector_checks f i)) ∧
    (∀ (s : ClipComparisonS) (f i : String) (x : Option ℤ),
      (is_selector (s.getField f) = false →
        clip_comparison_validate_field_selector s f i x = .error .executionGraphError) ∧
      (is_selector (s.getField f) = true →
        clip_comparison_validate_field_selector s f i x = clip_comparison_selector_checks f i)) ∧
    (∀ (s : ConsensusS) (f i : String) (x : Option ℤ), f ≠ "predictions" →
      (is_selector (s.getField f) = false →
        consensus_validate_field_selector s f i x = .error .executionGraphError) ∧
      (is_selector (s.getField f) = true →
        consensus_validate_field_selector s f i x = consensus_param_checks f i)) := by
  refine ⟨?_, ?_, ?_, ?_, ?_, ?_, ?_, ?_, ?_, ?_, ?_, ?_, ?_, ?_, ?_⟩
  · intro s f i x
    constructor <;> intro h <;>
      simp [roboflow_validate_field_selector, classification_validate_field_selector,
        multi_label_classification_validate_field_selector,
        object_detection_validate_field_selector, keypoints_validate_field_selector,
        instance_segmentation_validate_field_selector, ocr_validate_field_selector,
        crop_validate_field_selector, condition_validate_field_selector,
        detection_filter_validate_field_selector,
        detection_offset_validate_field_selector,
        absolute_static_crop_validate_field_selector,
        relative_static_crop_validate_field_selector,
        clip_comparison_validate_field_selector,
        classification_selector_checks, multi_label_classification_selector_checks,
        object_detection_selector_checks, keypoints_selector_checks,
        instance_segmentation_selector_checks, Bind.bind, Except.bind, h]
  · intro s f i x
    constructor <;> intro h <;>
      simp [roboflow_validate_field_selector, classification_validate_field_selector,
        multi_label_classification_validate_field_selector,
        object_detection_validate_field_selector, keypoints_validate_field_selector,
        instance_segmentation_validate_field_selector, ocr_validate_field_selector,
        crop_validate_field_selector, condition_validate_field_selector,
        detection_filter_validate_field_selector,
        detection_offset_validate_field_selector,
        absolute_static_crop_validate_field_selector,
        relative_static_crop_validate_field_selector,
        clip_comparison_validate_field_selector,
        classification_selector_checks, multi_label_classification_selector_checks,
        object_detection_selector_checks, keypoints_selector_checks,
        instance_segmentation_selector_checks, Bind.bind, Except.bind, h]
  · intro s f i x
    constructor <;> intro h <;>
      simp [roboflow_validate_field_selector, classification_validate_field_selector,
        multi_label_classification_validate_field_selector,
        object_detection_validate_field_selector, keypoints_validate_field_selector,
        instance_segmentation_validate_field_selector, ocr_validate_field_selector,
        crop_validate_field_selector, condition_validate_field_selector,
        detection_filter_validate_field_selector,
        detection_offset_validate_field_selector,
        absolute_static_crop_validate_field_selector,
        relative_static_crop_validate_field_selector,
        clip_comparison_validate_field_selector,
        classification_selector_checks, multi_label_classification_selector_checks,
        object_detection_selector_checks, keypoints_selector_checks,
        instance_segmentation_selector_checks, Bind.bind, Except.bind, h]
  · intro s f i x
    constructor <;> intro h <;>
      simp [roboflow_validate_field_selector, classification_validate_field_selector,
        multi_label_classification_validate_field_selector,
        object_detection_validate_field_selector, keypoints_validate_field_selector,
        instance_segmentation_validate_field_selector, ocr_validate_field_selector,
        crop_validate_field_selector, condition_validate_field_selector,
        detection_filter_validate_field_selector,
        detection_offset_validate_field_selector,
        absolute_static_crop_validate_field_selector,
        relative_static_crop_validate_field_selector,
        clip_comparison_validate_field_selector,
        classification_selector_checks, multi_label_classification_selector_checks,
        object_detection_selector_checks, keypoints_selector_checks,
        instance_segmentation_selector_checks, Bind.bind, Except.bind, h]
  · intro s f i x
    constructor <;> intro h <;>
      simp [roboflow_validate_field_selector, classification_validate_field_selector,
        multi_label_classification_validate_field_selector,
        object_detection_validate_field_selector, keypoints_validate_field_selector,
        instance_segmentation_validate_field_selector, ocr_validate_field_selector,
        crop_validate_field_selector, condition_validate_field_selector,
        detection_filter_validate_field_selector,
        detection_offset_validate_field_selector,
        absolute_static_crop_validate_field_selector,
        relative_static_crop_validate_field_selector,
        clip_comparison_validate_field_selector,
        classification_selector_checks, multi_label_classification_selector_checks,
        object_detection_selector_checks, keypoints_selector_checks,
        instance_segmentation_selector_checks, Bind.bind, Except.bind, h]
  · intro s f i x
    constructor <;> intro h <;>
      simp [roboflow_validate_field_selector, classification_validate_field_selector,
        multi_label_classification_validate_field_selector,
        object_detection_validate_field_selector, keypoints_validate_field_selector,
        instance_segmentation_validate_field_selector, ocr_validate_field_selector,
        crop_validate_field_selector, condition_validate_field_selector,
        detection_filter_validate_field_selector,
        detection_offset_validate_field_selector,
        absolute_static_crop_validate_field_selector,
        relative_static_crop_validate_field_selector,
        clip_comparison_validate_field_selector,
        classification_selector_checks, multi_label_classification_selector_checks,
        object_detection_selector_checks, keypoints_selector_checks,
        instance_segmentation_selector_checks, Bind.bind, Except.bind, h]
  · intro s f i x
    constructor <;> intro h <;>
      simp [roboflow_validate_field_selector, classification_validate_field_selector,
        multi_label_classification_validate_field_selector,
        object_detection_validate_field_selector, keypoints_validate_field_selector,
        instance_segmentation_validate_field_selector, ocr_validate_field_selector,
        crop_validate_field_selector, condition_validate_field_selector,
        detection_filter_validate_field_selector,
        detection_offset_validate_field_selector,
        absolute_static_crop_validate_field_selector,
        relative_static_crop_validate_field_selector,
        clip_comparison_validate_field_selector,
        classification_selector_checks, multi_label_classification_selector_checks,
        object_detection_selector_checks, keypoints_selector_checks,
        instance_segmentation_selector_checks, Bind.bind, Except.bind, h]
  · intro s f i x
    constructor <;> intro h <;>
      simp [roboflow_validate_field_selector, classification_validate_field_selector,
        multi_label_classification_validate_field_selector,
        object_detection_validate_field_selector, keypoints_validate_field_selector,
        instance_segmentation_validate_field_selector, ocr_validate_field_selector,
        crop_validate_field_selector, condition_validate_field_selector,
        detection_filter_validate_field_selector,
        detection_offset_validate_field_selector,
        absolute_static_crop_validate_field_selector,
        relative_static_crop_validate_field_selector,
        clip_comparison_validate_field_selector,
        classification_selector_checks, multi_label_classification_selector_checks,
        object_detection_selector_checks, keypoints_selector_checks,
        instance_segmentation_selector_checks, Bind.bind, Except.bind, h]
  · intro s f i x
    constructor <;> intro h <;>
      simp [roboflow_validate_field_selector, classification_validate_field_selector,
        multi_label_classification_validate_field_selector,
        object_detection_validate_field_selector, keypoints_validate_field_selector,
        instance_segmentation_validate_field_selector, ocr_validate_field_selector,
        crop_validate_field_selector, condition_validate_field_selector,
        detection_filter_validate_field_selector,
        detection_offset_validate_field_selector,
        absolute_static_crop_validate_field_selector,
        relative_static_crop_validate_field_selector,
        clip_comparison_validate_field_selector,
        classification_selector_checks, multi_label_classification_selector_checks,
        object_detection_selector_checks, keypoints_selector_checks,
        instance_segmentation_selector_checks, Bind.bind, Except.bind, h]
  · intro s f i x
    constructor <;> intro h <;>
      simp [roboflow_validate_field_selector, classification_validate_field_selector,
        multi_label_classification_validate_field_selector,
        object_detection_validate_field_selector, keypoints_validate_field_selector,
        instance_segmentation_validate_field_selector, ocr_validate_field_selector,
        crop_validate_field_selector, condition_validate_field_selector,
        detection_filter_validate_field_selector,
        detection_offset_validate_field_selector,
        absolute_static_crop_validate_field_selector,
        relative_static_crop_validate_field_selector,
        clip_comparison_validate_field_selector,
        classification_selector_checks, multi_label_classification_selector_checks,
        object_detection_selector_checks, keypoints_selector_checks,
        instance_segmentation_selector_checks, Bind.bind, Except.bind, h]
  · intro s f i x
    constructor <;> intro h <;>
      simp [roboflow_validate_field_selector, classification_validate_field_selector,
        multi_label_classification_validate_field_selector,
        object_detection_validate_field_selector, keypoints_validate_field_selector,
        instance_segmentation_validate_field_selector, ocr_validate_field_selector,
        crop_validate_field_selector, condition_validate_field_selector,
        detection_filter_validate_field_selector,
        detection_offset_validate_field_selector,
        absolute_static_crop_validate_field_selector,
        relative_static_crop_validate_field_selector,
        clip_comparison_validate_field_selector,
        classification_selector_checks, multi_label_classification_selector_checks,
        object_detection_selector_checks, keypoints_selector_checks,
        instance_segmentation_selector_checks, Bind.bind, Except.bind, h]
  · intro s f i x
    constructor <;> intro h <;>
      simp [roboflow_validate_field_selector, classification_validate_field_selector,
        multi_label_classification_validate_field_selector,
        object_detection_validate_field_selector, keypoints_validate_field_selector,
        instance_segmentation_validate_field_selector, ocr_validate_field_selector,
        crop_validate_field_selector, condition_validate_field_selector,
        detection_filter_validate_field_selector,
        detection_offset_validate_field_selector,
        absolute_static_crop_validate_field_selector,
        relative_static_crop_validate_field_selector,
        clip_comparison_validate_field_selector,
        classification_selector_checks, multi_label_classification_selector_checks,
        object_detection_selector_checks, keypoints_selector_checks,
        instance_segmentation_selector_checks, Bind.bind, Except.bind, h]
  · intro s f i x
    constructor <;> intro h <;>
      simp [roboflow_validate_field_selector, classification_validate_field_selector,
        multi_label_classification_validate_field_selector,
        object_detection_validate_field_selector, keypoints_validate_field_selector,
        instance_segmentation_validate_field_selector, ocr_validate_field_selector,
        crop_validate_field_selector, condition_validate_field_selector,
        detection_filter_validate_field_selector,
        detection_offset_validate_field_selector,
        absolute_static_crop_validate_field_selector,
        relative_static_crop_validate_field_selector,
        clip_comparison_validate_field_selector,
        classification_selector_checks, multi_label_classification_selector_checks,
        object_detection_selector_checks, keypoints_selector_checks,
        instance_segmentation_selector_checks, Bind.bind, Except.bind, h]
  · intro s f i x
    constructor <;> intro h <;>
      simp [roboflow_validate_field_selector, classification_validate_field_selector,
        multi_label_classification_validate_field_selector,
        object_detection_validate_field_selector, keypoints_validate_field_selector,
        instance_segmentation_validate_field_selector, ocr_validate_field_selector,
        crop_validate_field_selector, condition_validate_field_selector,
        detection_filter_validate_field_selector,
        detection_offset_validate_field_selector,
        absolute_static_crop_validate_field_selector,
        relative_static_crop_validate_field_selector,
        clip_comparison_validate_field_selector,
        classification_selector_checks, multi_label_classification_selector_checks,
        object_detection_selector_checks, keypoints_selector_checks,
        instance_segmentation_selector_checks, Bind.bind, Except.bind, h]
  · intro s f i x hne
    constructor <;> intro h <;>
      simp [consensus_validate_field_selector, consensus_param_checks, hne, h]

/-- Witness for `selector_guard_before_kind_checks`: a crop step whose
`detections` field holds the plain string literal is rejected with
`ExecutionGraphError`. -/
theorem selector_guard_before_kind_checks_witness :
    crop_validate_field_selector ⟨"crop_1", .str "$inputs.image", .str "dets"⟩
      "detections" "ObjectDetectionModel" Option.none =
      .error .executionGraphError := by
  have h := selector_guard_before_kind_checks
  exact (h.2.2.2.2.2.2.2.1 ⟨"crop_1", .str "$inputs.image", .str "dets"⟩
    "detections" "ObjectDetectionModel" Option.none).1 (by decide)

/-- C1 (amended): an index is required for the consensus `predictions` field
— omitting it fails with `ExecutionGraphError` — but for single-valued
fields of every variant a supplied index is ignored rather than rejected:
validation behaves exactly as if no index had been supplied. -/
theorem index_required_only_for_predictions :
    (∀ (s : ConsensusS) (i : String),
      consensus_validate_field_selector s "predictions" i Option.none =
        .error .executionGraphError) ∧
    (∀ (s : MFields) (f i : String) (n : ℤ),
      roboflow_validate_field_selector s f i (some n) = roboflow_validate_field_selector s f i Option.none) ∧
    (∀ (s : MFields) (f i : String) (n : ℤ),
      classification_validate_field_selector s f i (some n) = classification_validate_field_selector s f i Option.none) ∧
    (∀ (s : MFields) (f i : String) (n : ℤ),
      multi_label_classification_validate_field_selector s f i (some n) = multi_label_classification_validate_field_selector s f i Option.none) ∧
    (∀ (s : MFields) (f i : String) (n : ℤ),
      object_detection_validate_field_selector s f i (some n) = object_detection_validate_field_selector s f i Option.none) ∧
    (∀ (s : MFields) (f i : String) (n : ℤ),
      keypoints_validate_field_selector s f i (some n) = keypoints_validate_field_selector s f i Option.none) ∧
    (∀ (s : MFields) (f i : String) (n : ℤ),
      instance_segmentation_validate_field_selector s f i (some n) = instance_segmentation_validate_field_selector s f i Option.none) ∧
    (∀ (s : OCRS) (f i : String) (n : ℤ),
      ocr_validate_field_selector s f i (some n) = ocr_validate_field_selector s f i Option.none) ∧
    (∀ (s : CropS) (f i : String) (n : ℤ),
      crop_validate_field_selector s f i (some n) = crop_validate_field_selector s f i Option.none) ∧
    (∀ (s : ConditionS) (f i : String) (n : ℤ),
      condition_validate_field_selector s f i (some n) = condition_validate_field_selector s f i Option.none) ∧
    (∀ (s : DetectionFilterS) (f i : String) (n : ℤ),
      detection_filter_validate_field_selector s f i (some n) = detection_filter_validate_field_selector s f i Option.none) ∧
    (∀ (s : DetectionOffsetS) (f i : String) (n : ℤ),
      detection_offset_validate_field_selector s f i (some n) = detection_offset_validate_field_selector s f i Option.none) ∧
    (∀ (s : StaticCropS) (f i : String) (n : ℤ),
      absolute_static_crop_validate_field_selector s f i (some n) = absolute_static_crop_validate_field_selector s f i Option.none) ∧
    (∀ (s : StaticCropS) (f i : String) (n : ℤ),
      relative_static_crop_validate_field_selector s f i (some n) = relative_static_crop_validate_field_selector s f i Option.none) ∧
    (∀ (s : ClipComparisonS) (f i : String) (n : ℤ),
      clip_comparison_validate_field_selector s f i (some n) = clip_comparison_validate_field_selector s f i Option.none) ∧
    (∀ (s : ConsensusS) (f i : String) (n : ℤ), f ≠ "predictions" →
      consensus_validate_field_selector s f i (some n) =
        consensus_validate_field_selector s f i Option.none) := by
  refine ⟨?_, ?_, ?_, ?_, ?_, ?_, ?_, ?_, ?_, ?_, ?_, ?_, ?_, ?_, ?_, ?_⟩
  · intro s i
    simp [consensus_validate_field_selector]
  · intro s f i n
    rfl
  · intro s f i n
    rfl
  · intro s f i n
    rfl
  · intro s f i n
    rfl
  · intro s f i n
    rfl
  · intro s f i n
    rfl
  · intro s f i n
    rfl
  · intro s f i n
    rfl
  · intro s f i n
    rfl
  · intro s f i n
    rfl
  · intro s f i n
    rfl
  · intro s f i n
    rfl
  · intro s f i n
    rfl
  · intro s f i n
    rfl
  · intro s f i n hne
    simp [consensus_validate_field_selector, hne]

/-- Witness for `index_required_only_for_predictions` at a concrete consensus
step and single-valued field. -/
theorem index_required_only_for_predictions_witness :
    consensus_validate_field_selector
      ⟨"c", ["$steps.a.predictions"], .int 1, .bool true, .float (3/10),
       .float 0, .none, .none, .maxMode, .average, .average⟩
      "confidence" "InferenceParameter" (some 5) =
    consensus_validate_field_selector
      ⟨"c", ["$steps.a.predictions"], .int 1, .bool true, .float (3/10),
       .float 0, .none, .none, .maxMode, .average, .average⟩
      "confidence" "InferenceParameter" Option.none := by
  have h := index_required_only_for_predictions
  exact h.2.2.2.2.2.2.2.2.2.2.2.2.2.2.2
    ⟨"c", ["$steps.a.predictions"], .int 1, .bool true, .float (3/10),
     .float 0, .none, .none, .maxMode, .average, .average⟩
    "confidence" "InferenceParameter" 5 (by decide)

/-- Counterexample to C1 as stated: supplying an index for the single-valued
`model_id` field of a classification step does not fail with an arity error —
validation succeeds. -/
theorem index_on_single_valued_field_not_rejected :
    classification_validate_field_selector
      ⟨"step_1", .str "$inputs.image", .str "$inputs.model", .bool false,
       .bool false, .none, .float (2/5), .float (3/10), .int 300, .int 3000,
       .float 0, .str "accurate", .float 0⟩
      "model_id" "InferenceParameter" (some 7) = .ok () := rfl

/-- C4: on the consensus `predictions` field, an index strictly greater than
the list length is caught by the guard and fails with `ExecutionGraphError`,
but an index equal to the list length escapes the guard (`index > len` is
false there) and the subscript `self.predictions[index]` performs an
out-of-bounds access, raising an uncaught `IndexError` instead of the
designated error. -/
theorem consensus_prediction_index_out_of_range :
    (∀ (s : ConsensusS) (i : String) (n : ℤ),
      (s.predictions.length : ℤ) < n →
        consensus_validate_field_selector s "predictions" i (some n) =
          .error .executionGraphError) ∧
    (∀ (s : ConsensusS) (i : String),
      consensus_validate_field_selector s "predictions" i
          (some (s.predictions.length : ℤ)) = .error .indexError) := by
  constructor
  · intro s i n hn
    simp [consensus_validate_field_selector, hn]
  · intro s i
    have hlen : ¬ ((s.predictions.length : ℤ) > (s.predictions.length : ℤ)) :=
      lt_irrefl _
    have hidx : pyIndex s.predictions (s.predictions.length : ℤ) = Option.none := by
      unfold pyIndex
      have h1 : ¬ ((s.predictions.length : ℤ) < (s.predictions.length : ℤ)) :=
        lt_irrefl _
      have h2 : ¬ ((s.predictions.length : ℤ) < 0) := by
        simp [Int.natCast_nonneg]
      simp [h1, h2]
    simp [consensus_validate_field_selector, hlen, hidx]

/-- Witness for `consensus_prediction_index_out_of_range` at a concrete
consensus step with two predictions and index 3. -/
theorem consensus_prediction_index_out_of_range_witness :
    consensus_validate_field_selector
      ⟨"c", ["$steps.a.predictions", "$steps.b.predictions"], .int 1,
       .bool true, .float (3/10), .float 0, .none, .none, .maxMode, .average,
       .average⟩
      "predictions" "ObjectDetectionModel" (some 3) =
      .error .executionGraphError := by
  exact consensus_prediction_index_out_of_range.1
    ⟨"c", ["$steps.a.predictions", "$steps.b.predictions"], .int 1,
     .bool true, .float (3/10), .float 0, .none, .none, .maxMode, .average,
     .average⟩
    "ObjectDetectionModel" 3 (by decide)

/-- A raised exception propagates through sequencing. -/
theorem isErr_bind_left (a : Except VErr Unit) (f : Unit → Except VErr Unit)
    (h : isErr a = true) : isErr (a >>= f) = true := by
  cases a with
  | error e => rfl
  | ok u => simp [isErr] at h

/-- A validation sequence whose continuation always raises, raises. -/
theorem isErr_bind_right (a : Except VErr Unit) (f : Unit → Except VErr Unit)
    (h : ∀ u, isErr (f u) = true) : isErr (a >>= f) = true := by
  cases a with
  | error e => rfl
  | ok u => exact h u

/-- C3: constructing a `DetectionsConsensus` step with an empty `predictions`
list, or with any non-selector element in `predictions`, fails during the
pydantic construction validators, before the step can join a graph. -/
theorem consensus_predictions_rejected_at_construction :
    (∀ f : ConsensusFields, f.predictions = .list [] →
      isErr (detections_consensus_construct f) = true) ∧
    (∀ (f : ConsensusFields) (xs : List PyVal) (v : PyVal),
      f.predictions = .list xs → v ∈ xs → is_selector v = false →
      isErr (detections_consensus_construct f) = true) := by
  constructor
  · intro f hp
    unfold detections_consensus_construct
    rw [hp]
    exact isErr_bind_left _ _ rfl
  · intro f xs v hp hv hnsel
    have hall : xs.all is_selector = false := by
      cases h' : xs.all is_selector
      · rfl
      · simp only [List.all_eq_true] at h'
        have hcontra := h' v hv
        rw [hnsel] at hcontra
        exact absurd hcontra (by simp)
    unfold detections_consensus_construct
    rw [hp]
    apply isErr_bind_left
    unfold consensus_predictions_validator
    apply isErr_bind_left
    simp [validate_field_is_list_of_selectors, hall, isErr]

/-- Witness for `consensus_predictions_rejected_at_construction`: a
predictions list holding the non-selector string literal is rejected at
construction. -/
theorem consensus_predictions_rejected_at_construction_witness :
    isErr (detections_consensus_construct
      ⟨"c", .list [.str "plain"], .int 1, .bool true, .float (3/10), .float 0,
       .none, .none⟩) = true := by
  exact consensus_predictions_rejected_at_construction.2
    ⟨"c", .list [.str "plain"], .int 1, .bool true, .float (3/10), .float 0,
     .none, .none⟩
    [.str "plain"] (.str "plain") rfl (by simp) (by decide)

/-- A numeric field value outside `[0, 1]` is rejected by the shared range
validator with `ValueError`. -/
theorem in_range_validator_err (v : PyVal) (q : ℚ)
    (ha : asNumber v = some q) (hq : q < 0 ∨ 1 < q) :
    validate_field_is_in_range_zero_one_or_empty_or_selector v =
      .error .valueError := by
  have hsel : is_selector v = false := by
    cases v <;> simp_all [asNumber, is_selector]
  have hnone : v.isNone = false := by
    cases v <;> simp_all [asNumber, PyVal.isNone]
  have hrange : ¬ (0 ≤ q ∧ q ≤ 1) := by
    rintro ⟨h0, h1⟩
    rcases hq with h | h <;> linarith
  simp [validate_field_is_in_range_zero_one_or_empty_or_selector, hsel, hnone,
    ha, hrange]

/-- A numeric field value inside `[0, 1]` passes the shared range
validator. -/
theorem in_range_validator_ok (q : ℚ) (h0 : 0 ≤ q) (h1 : q ≤ 1) :
    validate_field_is_in_range_zero_one_or_empty_or_selector (.float q) =
      .ok () := by
  simp [validate_field_is_in_range_zero_one_or_empty_or_selector, is_selector,
    PyVal.isNone, asNumber, h0, h1]

/-- An out-of-range literal `confidence` makes the whole
`ObjectDetectionModel` construction fail. -/
theorem od_construct_bad_confidence (f : MFields) (q : ℚ)
    (ha : asNumber f.confidence = some q) (hq : q < 0 ∨ 1 < q) :
    isErr (object_detection_model_construct f) = true := by
  unfold object_detection_model_construct
  apply isErr_bind_right; intro u
  apply isErr_bind_right; intro u
  apply isErr_bind_right; intro u
  apply isErr_bind_left
  rw [in_range_validator_err _ _ ha hq]; rfl

/-- C6: for every model-family step variant, a literal `confidence` outside
`[0, 1]` fails at step construction, independently of any graph context,
while a selector string or an in-range number is accepted. -/
theorem model_confidence_range_enforced_at_construction :
    (∀ (f : MFields) (q : ℚ), asNumber f.confidence = some q →
      q < 0 ∨ 1 < q → isErr (classification_model_construct f) = true) ∧
    (∀ (f : MFields) (q : ℚ), asNumber f.confidence = some q →
      q < 0 ∨ 1 < q → isErr (multi_label_classification_model_construct f) = true) ∧
    (∀ (f : MFields) (q : ℚ), asNumber f.confidence = some q →
      q < 0 ∨ 1 < q → isErr (object_detection_model_construct f) = true) ∧
    (∀ (f : MFields) (q : ℚ), asNumber f.confidence = some q →
      q < 0 ∨ 1 < q → isErr (keypoints_detection_model_construct f) = true) ∧
    (∀ (f : MFields) (q : ℚ), asNumber f.confidence = some q →
      q < 0 ∨ 1 < q → isErr (instance_segmentation_model_construct f) = true) ∧
    (∀ q : ℚ, 0 ≤ q → q ≤ 1 →
      classification_model_construct (goodModelFields (.float q)) = .ok ()) ∧
    (classification_model_construct (goodModelFields (.str "$inputs.conf")) = .ok ()) ∧
    (∀ q : ℚ, 0 ≤ q → q ≤ 1 →
      multi_label_classification_model_construct (goodModelFields (.float q)) = .ok ()) ∧
    (multi_label_classification_model_construct (goodModelFields (.str "$inputs.conf")) = .ok ()) ∧
    (∀ q : ℚ, 0 ≤ q → q ≤ 1 →
      object_detection_model_construct (goodModelFields (.float q)) = .ok ()) ∧
    (object_detection_model_construct (goodModelFields (.str "$inputs.conf")) = .ok ()) ∧
    (∀ q : ℚ, 0 ≤ q → q ≤ 1 →
      keypoints_detection_model_construct (goodModelFields (.float q)) = .ok ()) ∧
    (keypoints_detection_model_construct (goodModelFields (.str "$inputs.conf")) = .ok ()) ∧
    (∀ q : ℚ, 0 ≤ q → q ≤ 1 →
      instance_segmentation_model_construct (goodModelFields (.float q)) = .ok ()) ∧
    (instance_segmentation_model_construct (goodModelFields (.str "$inputs.conf")) = .ok ()) := by
  refine ⟨?_, ?_, ?_, ?_, ?_, ?_, ?_, ?_, ?_, ?_, ?_, ?_, ?_, ?_, ?_⟩
  · intro f q ha hq
    unfold classification_model_construct
    exact isErr_bind_right _ _ (fun u => by
      rw [in_range_validator_err _ _ ha hq]; rfl)
  · intro f q ha hq
    unfold multi_label_classification_model_construct
    exact isErr_bind_right _ _ (fun u => by
      rw [in_range_validator_err _ _ ha hq]; rfl)
  · intro f q ha hq
    exact od_construct_bad_confidence f q ha hq
  · intro f q ha hq
    unfold keypoints_detection_model_construct
    exact isErr_bind_left _ _ (od_construct_bad_confidence f q ha hq)
  · intro f q ha hq
    unfold instance_segmentation_model_construct
    exact isErr_bind_left _ _ (od_construct_bad_confidence f q ha hq)
  · intro q h0 h1
    have hconf := in_range_validator_ok q h0 h1
    calc classification_model_construct (goodModelFields (.float q))
        = validate_field_is_in_range_zero_one_or_empty_or_selector (.float q) := rfl
      _ = .ok () := by rw [hconf]
  · rfl
  · intro q h0 h1
    have hconf := in_range_validator_ok q h0 h1
    calc multi_label_classification_model_construct (goodModelFields (.float q))
        = validate_field_is_in_range_zero_one_or_empty_or_selector (.float q) := rfl
      _ = .ok () := by rw [hconf]
  · rfl
  · intro q h0 h1
    have hconf := in_range_validator_ok q h0 h1
    calc object_detection_model_construct (goodModelFields (.float q))
        = Except.bind (validate_field_is_in_range_zero_one_or_empty_or_selector (.float q)) (fun _ => .ok ()) := rfl
      _ = .ok () := by rw [hconf]; rfl
  · rfl
  · intro q h0 h1
    have hconf := in_range_validator_ok q h0 h1
    calc keypoints_detection_model_construct (goodModelFields (.float q))
        = Except.bind (Except.bind (validate_field_is_in_range_zero_one_or_empty_or_selector (.float q)) (fun _ => .ok ())) (fun _ => .ok ()) := rfl
      _ = .ok () := by rw [hconf]; rfl
  · rfl
  · intro q h0 h1
    have hconf := in_range_validator_ok q h0 h1
    calc instance_segmentation_model_construct (goodModelFields (.float q))
        = Except.bind (Except.bind (validate_field_is_in_range_zero_one_or_empty_or_selector (.float q)) (fun _ => .ok ())) (fun _ => .ok ()) := rfl
      _ = .ok () := by rw [hconf]; rfl
  · rfl

/-- Witness for `model_confidence_range_enforced_at_construction`: the
literal `confidence = 3/2` fails classification-model construction, and the
in-range `confidence = 2/5` is accepted. -/
theorem model_confidence_range_witness :
    isErr (classification_model_construct (goodModelFields (.float (3/2)))) =
        true ∧
    classification_model_construct (goodModelFields (.float (2/5))) =
      .ok () := by
  have h := model_confidence_range_enforced_at_construction
  constructor
  · exact h.1 (goodModelFields (.float (3/2))) (3/2) rfl
      (Or.inr (by norm_num))
  · exact h.2.2.2.2.2.1 (2/5) (by norm_num) (by norm_num)

/-- C5: an `InstanceSegmentationModel` with a literal `mask_decode_mode`
outside the enumerated set fails at construction, and binding such a literal
at invocation time fails with `VariableTypeError`; every value in the set is
accepted by both paths. -/
theorem mask_decode_mode_enum_enforced :
    (∀ (f : MFields) (s : String), f.mask_decode_mode = .str s →
      is_selector (.str s) = false → DECODE_MODES.contains s = false →
      isErr (instance_segmentation_model_construct f) = true) ∧
    (∀ s : String, DECODE_MODES.contains s = false →
      instance_segmentation_validate_field_binding "mask_decode_mode"
        (.str s) = .error .variableTypeError) ∧
    (instance_segmentation_model_construct (goodSegFields "accurate") =
      .ok ()) ∧
    (instance_segmentation_model_construct (goodSegFields "tradeoff") =
      .ok ()) ∧
    (instance_segmentation_model_construct (goodSegFields "fast") = .ok ()) ∧
    (instance_segmentation_validate_field_binding "mask_decode_mode"
      (.str "accurate") = .ok ()) ∧
    (instance_segmentation_validate_field_binding "mask_decode_mode"
      (.str "tradeoff") = .ok ()) ∧
    (instance_segmentation_validate_field_binding "mask_decode_mode"
      (.str "fast") = .ok ()) := by
  refine ⟨?_, ?_, rfl, rfl, rfl, rfl, rfl, rfl⟩
  · intro f s hm hsel hmem
    unfold instance_segmentation_model_construct
    apply isErr_bind_right; intro u
    apply isErr_bind_left
    rw [hm]
    have hmem2 : s ∉ DECODE_MODES := by simpa using hmem
    simp [validate_field_is_selector_or_one_of_values,
      validate_field_is_one_of_selected_values, hsel, hmem2, isErr]
  · intro s hs
    calc instance_segmentation_validate_field_binding "mask_decode_mode"
          (.str s)
        = validate_field_is_one_of_selected_values (.str s) DECODE_MODES
            .variableTypeError := rfl
      _ = .error .variableTypeError := by
          have hs2 : s ∉ DECODE_MODES := by simpa using hs
          simp [validate_field_is_one_of_selected_values, hs2]

/-- Witness for `mask_decode_mode_enum_enforced`: the literal mode valued
outside the three legal values is rejected at construction and at binding. -/
theorem mask_decode_mode_enum_enforced_witness :
    isErr (instance_segmentation_model_construct (goodSegFields "ultra")) =
        true ∧
    instance_segmentation_validate_field_binding "mask_decode_mode"
      (.str "ultra") = .error .variableTypeError := by
  have h := mask_decode_mode_enum_enforced
  exact ⟨h.1 (goodSegFields "ultra") "ultra" rfl (by decide) (by decide),
    h.2.1 "ultra" (by decide)⟩

/-- A rational equals its Python rounding exactly when it is an integer
(denominator 1). -/
theorem pyRoundQ_cast_eq_iff (q : ℚ) : ((pyRoundQ q : ℚ) = q) ↔ q.den = 1 := by
  constructor
  · intro h
    rw [← h]
    exact Rat.den_intCast _
  · intro h
    obtain ⟨n, rfl⟩ : ∃ n : ℤ, q = (n : ℚ) :=
      ⟨q.num, ((Rat.den_eq_one_iff q).mp h).symm⟩
    simp [pyRoundQ, Int.fract_intCast, Int.floor_intCast,
      show (0 : ℚ) < 1/2 by norm_num]

/-- C7: for the `AbsoluteStaticCrop` step, binding a value to a coordinate
field succeeds exactly when the value is numeric and integral (an `int`, a
`bool`, or a `float` equal to its own rounding), and raises
`VariableTypeError` exactly otherwise. -/
theorem absolute_crop_coordinate_binding (field : String) (value : PyVal)
    (hf : staticCropCoordinateFields.contains field = true) :
    (absolute_static_crop_validate_field_binding field value = .ok () ↔
      ∃ q, asNumber value = some q ∧ q.den = 1) ∧
    (absolute_static_crop_validate_field_binding field value =
        .error .variableTypeError ↔
      ¬ ∃ q, asNumber value = some q ∧ q.den = 1) := by
  have hmem : field ∈ staticCropCoordinateFields := by simpa using hf
  have hfi : field ≠ "image" := by
    simp only [staticCropCoordinateFields, List.mem_cons, List.mem_singleton,
      List.not_mem_nil, or_false] at hmem
    rcases hmem with rfl | rfl | rfl | rfl <;> decide
  have hred : absolute_static_crop_validate_field_binding field value =
      (if (asNumber value).isNone = true ∨
          ¬ pyNumEq value (pyRound value) = true then
        Except.error .variableTypeError else Except.ok ()) := by
    unfold absolute_static_crop_validate_field_binding
    rw [if_neg hfi]
    simp only [Bind.bind, Except.bind]
    rw [if_pos hf]
  have hkey : (∃ q, asNumber value = some q ∧ q.den = 1) ↔
      ¬ ((asNumber value).isNone = true ∨
          ¬ pyNumEq value (pyRound value) = true) := by
    cases value with
    | none => simp [asNumber, pyNumEq, pyRound]
    | bool b => cases b <;> simp [asNumber, pyNumEq, pyRound]
    | int n => simp [asNumber, pyNumEq, pyRound]
    | float q =>
      constructor
      · rintro ⟨q2, hq2, hd⟩
        have hq : q2 = q := by
          simpa [asNumber] using hq2.symm
        subst hq
        rintro (h1 | h2)
        · simp [asNumber] at h1
        · apply h2
          simp only [pyNumEq, pyRound, asNumber, decide_eq_true_eq]
          exact ((pyRoundQ_cast_eq_iff q2).mpr hd).symm
      · intro hcon
        refine ⟨q, rfl, ?_⟩
        have h2 : pyNumEq (.float q) (pyRound (.float q)) = true := by
          by_contra hno
          exact hcon (Or.inr hno)
        have hqe : q = ((pyRoundQ q : ℤ) : ℚ) := by
          simpa [pyNumEq, pyRound, asNumber] using h2
        exact (pyRoundQ_cast_eq_iff q).mp hqe.symm
    | str s => simp [asNumber, pyNumEq, pyRound]
    | list xs => simp [asNumber, pyNumEq, pyRound]
    | dict xs => simp [asNumber, pyNumEq, pyRound]
  rw [hred]
  by_cases hc : ((asNumber value).isNone = true ∨
      ¬ pyNumEq value (pyRound value) = true)
  · have hnp : ¬ (∃ q, asNumber value = some q ∧ q.den = 1) :=
      fun hp => (hkey.mp hp) hc
    rw [if_pos hc]
    exact ⟨iff_of_false (by simp) hnp, iff_of_true rfl hnp⟩
  · have hp := hkey.mpr hc
    rw [if_neg hc]
    exact ⟨iff_of_true rfl hp, iff_of_false (by simp) (not_not_intro hp)⟩

/-- Witness for `absolute_crop_coordinate_binding`: the literal integer 40 is
accepted for `x_center` and a plain string is rejected. -/
theorem absolute_crop_coordinate_binding_witness :
    absolute_static_crop_validate_field_binding "x_center" (.int 40) =
        .ok () ∧
    absolute_static_crop_validate_field_binding "x_center" (.str "abc") =
      .error .variableTypeError := by
  constructor
  · exact (absolute_crop_coordinate_binding "x_center" (.int 40)
      (by decide)).1.mpr ⟨(40 : ℤ), rfl, Rat.den_intCast 40⟩
  · exact (absolute_crop_coordinate_binding "x_center" (.str "abc")
      (by decide)).2.mpr (by rintro ⟨q, hq, hd⟩; simp [asNumber] at hq)

/-- Lookup in an appended association list: the left list wins. -/
theorem udict_lookup_append (k : String) (l1 l2 : UDict) :
    List.lookup k (l1 ++ l2) =
      match List.lookup k l1 with
      | some v => some v
      | Option.none => List.lookup k l2 := by
  induction l1 with
  | nil => simp [List.lookup]
  | cons a t ih =>
    obtain ⟨k1, v1⟩ := a
    by_cases h : k = k1
    · subst h
      simp [List.lookup]
    · have hbeq : (k == k1) = false := by simpa using h
      simp [List.lookup, hbeq, ih]

/-- Sequencing from a successful reconciliation step. -/
theorem uexcept_ok_bind (m : UDict) (k : UDict → Except UErr UDict) :
    ((Except.ok m : Except UErr UDict) >>= k) = k m := rfl

/-- Sequencing from a failed reconciliation step. -/
theorem uexcept_error_bind (e : UErr) (k : UDict → Except UErr UDict) :
    ((Except.error e : Except UErr UDict) >>= k) = Except.error e := rfl

/-- A successful reconciliation of a key present in both dicts yields the
singleton update with the combined value. -/
theorem combine_lookup_same (k : String) (f : UVal → UVal → Option UVal)
    (d1 d2 : UDict) (m : UDict) (a b : UVal)
    (hm : combineCommonKey k f d1 d2 = .ok m)
    (h1 : List.lookup k d1 = some a) (h2 : List.lookup k d2 = some b) :
    ∃ v, f a b = some v ∧ m = [(k, v)] := by
  unfold combineCommonKey at hm
  rw [h1, h2] at hm
  have hm2 : (match f a b with
      | some v => (Except.ok [(k, v)] : Except UErr UDict)
      | Option.none => Except.error .typeError) = Except.ok m := hm
  cases hfv : f a b with
  | none =>
    rw [hfv] at hm2
    exact absurd hm2 (by simp)
  | some v =>
    rw [hfv] at hm2
    refine ⟨v, rfl, ?_⟩
    simpa using hm2.symm

/-- A reconciliation update for key `k` holds no other key. -/
theorem combine_lookup_ne (k k2 : String) (f : UVal → UVal → Option UVal)
    (d1 d2 : UDict) (m : UDict) (hm : combineCommonKey k f d1 d2 = .ok m)
    (hne : k2 ≠ k) : List.lookup k2 m = Option.none := by
  unfold combineCommonKey at hm
  have hbeq : (k2 == k) = false := by simpa using hne
  cases ha : List.lookup k d1 with
  | none =>
    rw [ha] at hm
    have hm2 : m = [] := by simpa using hm.symm
    simp [hm2]
  | some a =>
    rw [ha] at hm
    cases hb : List.lookup k d2 with
    | none =>
      rw [hb] at hm
      have hm2 : m = [] := by simpa using hm.symm
      simp [hm2]
    | some b =>
      rw [hb] at hm
      have hm3 : (match f a b with
          | some v => (Except.ok [(k, v)] : Except UErr UDict)
          | Option.none => Except.error .typeError) = Except.ok m := hm
      cases hfv : f a b with
      | none =>
        rw [hfv] at hm3
        exact absurd hm3 (by simp)
      | some v =>
        rw [hfv] at hm3
        have hm4 : m = [(k, v)] := by simpa using hm3.symm
        simp [hm4, List.lookup, hbeq]

/-- A reconciliation step only ever raises `TypeError`. -/
theorem combine_err (k : String) (f : UVal → UVal → Option UVal)
    (d1 d2 : UDict) (e : UErr) (hm : combineCommonKey k f d1 d2 = .error e) :
    e = .typeError := by
  unfold combineCommonKey at hm
  cases ha : List.lookup k d1 with
  | none =>
    rw [ha] at hm
    exact absurd hm (by simp)
  | some a =>
    rw [ha] at hm
    cases hb : List.lookup k d2 with
    | none =>
      rw [hb] at hm
      exact absurd hm (by simp)
    | some b =>
      rw [hb] at hm
      have hm3 : (match f a b with
          | some v => (Except.ok [(k, v)] : Except UErr UDict)
          | Option.none => Except.error .typeError) = Except.error e := hm
      cases hfv : f a b with
      | none =>
        rw [hfv] at hm3
        simpa using hm3.symm
      | some v =>
        rw [hfv] at hm3
        exact absurd hm3 (by simp)

/-- Decomposition of a successful merge into its four reconciliation steps
and the final dict union. -/
theorem merge_ok_parts (d1 d2 r : UDict)
    (h : merge_usage_dicts d1 d2 = .ok r) :
    ∃ m1 m2 m3 m4,
      combineCommonKey "timestamp_start" pyMinU d1 d2 = .ok m1 ∧
      combineCommonKey "timestamp_stop" pyMaxU d1 d2 = .ok m2 ∧
      combineCommonKey "processed_frames" uAdd d1 d2 = .ok m3 ∧
      combineCommonKey "source_duration" uAdd d1 d2 = .ok m4 ∧
      r = ((m4 ++ m3) ++ (m2 ++ m1)) ++ (d2 ++ d1) := by
  unfold merge_usage_dicts at h
  by_cases hg : (d1 ≠ [] ∧ d2 ≠ [] ∧
      List.lookup "resource_id" d1 ≠ List.lookup "resource_id" d2)
  · rw [if_pos hg] at h
    exact absurd h (by simp)
  · rw [if_neg hg] at h
    cases h1 : combineCommonKey "timestamp_start" pyMinU d1 d2 with
    | error e =>
      rw [h1, uexcept_error_bind] at h
      exact absurd h (by simp)
    | ok m1 =>
      rw [h1, uexcept_ok_bind] at h
      cases h2 : combineCommonKey "timestamp_stop" pyMaxU d1 d2 with
      | error e =>
        rw [h2, uexcept_error_bind] at h
        exact absurd h (by simp)
      | ok m2 =>
        rw [h2, uexcept_ok_bind] at h
        cases h3 : combineCommonKey "processed_frames" uAdd d1 d2 with
        | error e =>
          rw [h3, uexcept_error_bind] at h
          exact absurd h (by simp)
        | ok m3 =>
          rw [h3, uexcept_ok_bind] at h
          cases h4 : combineCommonKey "source_duration" uAdd d1 d2 with
          | error e =>
            rw [h4, uexcept_error_bind] at h
            exact absurd h (by simp)
          | ok m4 =>
            rw [h4, uexcept_ok_bind] at h
            refine ⟨m1, m2, m3, m4, rfl, rfl, rfl, rfl, ?_⟩
            simpa using h.symm

/-- Python `min` on two numeric usage values is the rational minimum. -/
theorem pyMinU_num (a b : ℚ) :
    pyMinU (.num a) (.num b) = some (.num (min a b)) := by
  by_cases h : b < a
  · simp [pyMinU, uLt, h, min_eq_right h.le]
  · simp [pyMinU, uLt, h, min_eq_left (not_lt.mp h)]

/-- Python `max` on two numeric usage values is the rational maximum. -/
theorem pyMaxU_num (a b : ℚ) :
    pyMaxU (.num a) (.num b) = some (.num (max a b)) := by
  by_cases h : a < b
  · simp [pyMaxU, uLt, h, max_eq_right h.le]
  · simp [pyMaxU, uLt, h, max_eq_left (not_lt.mp h)]

/-- A successful merge reconciles `timestamp_start` to the minimum. -/
theorem merge_lookup_ts_start (d1 d2 r : UDict) (a b : ℚ)
    (h : merge_usage_dicts d1 d2 = .ok r)
    (h1 : List.lookup "timestamp_start" d1 = some (.num a))
    (h2 : List.lookup "timestamp_start" d2 = some (.num b)) :
    List.lookup "timestamp_start" r = some (.num (min a b)) := by
  obtain ⟨m1, m2, m3, m4, c1, c2, c3, c4, rfl⟩ := merge_ok_parts d1 d2 r h
  obtain ⟨v, hv, rfl⟩ := combine_lookup_same _ _ _ _ _ _ _ c1 h1 h2
  rw [pyMinU_num] at hv
  obtain rfl : v = .num (min a b) := by simpa using hv.symm
  have l4 := combine_lookup_ne "source_duration" "timestamp_start" _ _ _ _ c4
    (by decide)
  have l3 := combine_lookup_ne "processed_frames" "timestamp_start" _ _ _ _ c3
    (by decide)
  have l2 := combine_lookup_ne "timestamp_stop" "timestamp_start" _ _ _ _ c2
    (by decide)
  simp [udict_lookup_append, l4, l3, l2, List.lookup]

/-- A successful merge reconciles `timestamp_stop` to the maximum. -/
theorem merge_lookup_ts_stop (d1 d2 r : UDict) (a b : ℚ)
    (h : merge_usage_dicts d1 d2 = .ok r)
    (h1 : List.lookup "timestamp_stop" d1 = some (.num a))
    (h2 : List.lookup "timestamp_stop" d2 = some (.num b)) :
    List.lookup "timestamp_stop" r = some (.num (max a b)) := by
  obtain ⟨m1, m2, m3, m4, c1, c2, c3, c4, rfl⟩ := merge_ok_parts d1 d2 r h
  obtain ⟨v, hv, rfl⟩ := combine_lookup_same _ _ _ _ _ _ _ c2 h1 h2
  rw [pyMaxU_num] at hv
  obtain rfl : v = .num (max a b) := by simpa using hv.symm
  have l4 := combine_lookup_ne "source_duration" "timestamp_stop" _ _ _ _ c4
    (by decide)
  have l3 := combine_lookup_ne "processed_frames" "timestamp_stop" _ _ _ _ c3
    (by decide)
  simp [udict_lookup_append, l4, l3, List.lookup]

/-- A successful merge reconciles `processed_frames` to the sum. -/
theorem merge_lookup_frames (d1 d2 r : UDict) (a b : ℚ)
    (h : merge_usage_dicts d1 d2 = .ok r)
    (h1 : List.lookup "processed_frames" d1 = some (.num a))
    (h2 : List.lookup "processed_frames" d2 = some (.num b)) :
    List.lookup "processed_frames" r = some (.num (a + b)) := by
  obtain ⟨m1, m2, m3, m4, c1, c2, c3, c4, rfl⟩ := merge_ok_parts d1 d2 r h
  obtain ⟨v, hv, rfl⟩ := combine_lookup_same _ _ _ _ _ _ _ c3 h1 h2
  obtain rfl : v = .num (a + b) := by simpa [uAdd] using hv.symm
  have l4 := combine_lookup_ne "source_duration" "processed_frames" _ _ _ _ c4
    (by decide)
  simp [udict_lookup_append, l4, List.lookup]

/-- A successful merge reconciles `source_duration` to the sum. -/
theorem merge_lookup_duration (d1 d2 r : UDict) (a b : ℚ)
    (h : merge_usage_dicts d1 d2 = .ok r)
    (h1 : List.lookup "source_duration" d1 = some (.num a))
    (h2 : List.lookup "source_duration" d2 = some (.num b)) :
    List.lookup "source_duration" r = some (.num (a + b)) := by
  obtain ⟨m1, m2, m3, m4, c1, c2, c3, c4, rfl⟩ := merge_ok_parts d1 d2 r h
  obtain ⟨v, hv, rfl⟩ := combine_lookup_same _ _ _ _ _ _ _ c4 h1 h2
  obtain rfl : v = .num (a + b) := by simpa [uAdd] using hv.symm
  simp [udict_lookup_append, List.lookup]

/-- C9: `merge_usage_dicts` raises `ValueError` exactly when both dicts are
non-empty and disagree on `resource_id`; otherwise, for each of
`timestamp_start` (minimum), `timestamp_stop` (maximum), `processed_frames`
(sum) and `source_duration` (sum) present in both inputs, the merged value is
the stated combination — making the merge commutative on those four
reconciled fields. -/
theorem merge_usage_dicts_spec :
    (∀ d1 d2 : UDict, merge_usage_dicts d1 d2 = .error .valueError ↔
      (d1 ≠ [] ∧ d2 ≠ [] ∧
        List.lookup "resource_id" d1 ≠ List.lookup "resource_id" d2)) ∧
    (∀ (d1 d2 r : UDict) (a b : ℚ), merge_usage_dicts d1 d2 = .ok r →
      List.lookup "timestamp_start" d1 = some (.num a) →
      List.lookup "timestamp_start" d2 = some (.num b) →
      List.lookup "timestamp_start" r = some (.num (min a b))) ∧
    (∀ (d1 d2 r : UDict) (a b : ℚ), merge_usage_dicts d1 d2 = .ok r →
      List.lookup "timestamp_stop" d1 = some (.num a) →
      List.lookup "timestamp_stop" d2 = some (.num b) →
      List.lookup "timestamp_stop" r = some (.num (max a b))) ∧
    (∀ (d1 d2 r : UDict) (a b : ℚ), merge_usage_dicts d1 d2 = .ok r →
      List.lookup "processed_frames" d1 = some (.num a) →
      List.lookup "processed_frames" d2 = some (.num b) →
      List.lookup "processed_frames" r = some (.num (a + b))) ∧
    (∀ (d1 d2 r : UDict) (a b : ℚ), merge_usage_dicts d1 d2 = .ok r →
      List.lookup "source_duration" d1 = some (.num a) →
      List.lookup "source_duration" d2 = some (.num b) →
      List.lookup "source_duration" r = some (.num (a + b))) ∧
    (∀ k, k ∈ (["timestamp_start", "timestamp_stop", "processed_frames",
        "source_duration"] : List String) →
      ∀ (d1 d2 r r2 : UDict) (a b : ℚ),
        merge_usage_dicts d1 d2 = .ok r → merge_usage_dicts d2 d1 = .ok r2 →
        List.lookup k d1 = some (.num a) →
        List.lookup k d2 = some (.num b) →
        List.lookup k r = List.lookup k r2) := by
  refine ⟨?_, merge_lookup_ts_start, merge_lookup_ts_stop,
    merge_lookup_frames, merge_lookup_duration, ?_⟩
  · intro d1 d2
    constructor
    · intro h
      by_contra hg
      rw [merge_usage_dicts, if_neg hg] at h
      cases c1 : combineCommonKey "timestamp_start" pyMinU d1 d2 with
      | error e =>
        rw [c1, uexcept_error_bind] at h
        have he : e = .valueError := by simpa using h
        exact absurd (combine_err _ _ _ _ _ c1) (by simp [he])
      | ok m1 =>
        rw [c1, uexcept_ok_bind] at h
        cases c2 : combineCommonKey "timestamp_stop" pyMaxU d1 d2 with
        | error e =>
          rw [c2, uexcept_error_bind] at h
          have he : e = .valueError := by simpa using h
          exact absurd (combine_err _ _ _ _ _ c2) (by simp [he])
        | ok m2 =>
          rw [c2, uexcept_ok_bind] at h
          cases c3 : combineCommonKey "processed_frames" uAdd d1 d2 with
          | error e =>
            rw [c3, uexcept_error_bind] at h
            have he : e = .valueError := by simpa using h
            exact absurd (combine_err _ _ _ _ _ c3) (by simp [he])
          | ok m3 =>
            rw [c3, uexcept_ok_bind] at h
            cases c4 : combineCommonKey "source_duration" uAdd d1 d2 with
            | error e =>
              rw [c4, uexcept_error_bind] at h
              have he : e = .valueError := by simpa using h
              exact absurd (combine_err _ _ _ _ _ c4) (by simp [he])
            | ok m4 =>
              rw [c4, uexcept_ok_bind] at h
              exact absurd h (by simp)
    · intro hg
      rw [merge_usage_dicts, if_pos hg]
  · intro k hk d1 d2 r r2 a b hr hr2 h1 h2
    simp only [List.mem_cons, List.not_mem_nil, or_false] at hk
    rcases hk with rfl | rfl | rfl | rfl
    · rw [merge_lookup_ts_start d1 d2 r a b hr h1 h2,
        merge_lookup_ts_start d2 d1 r2 b a hr2 h2 h1, min_comm]
    · rw [merge_lookup_ts_stop d1 d2 r a b hr h1 h2,
        merge_lookup_ts_stop d2 d1 r2 b a hr2 h2 h1, max_comm]
    · rw [merge_lookup_frames d1 d2 r a b hr h1 h2,
        merge_lookup_frames d2 d1 r2 b a hr2 h2 h1, add_comm]
    · rw [merge_lookup_duration d1 d2 r a b hr h1 h2,
        merge_lookup_duration d2 d1 r2 b a hr2 h2 h1, add_comm]

/-- Witness for `merge_usage_dicts_spec`: merging two singleton usage dicts
reconciles `timestamp_start` to the minimum. -/
theorem merge_usage_dicts_spec_witness :
    List.lookup "timestamp_start"
      ([("timestamp_start", UVal.num 1), ("timestamp_start", UVal.num 2),
        ("timestamp_start", UVal.num 1)] : UDict) =
      some (.num (min 1 2)) := by
  exact merge_usage_dicts_spec.2.1 [("timestamp_start", .num 1)]
    [("timestamp_start", .num 2)]
    [("timestamp_start", UVal.num 1), ("timestamp_start", UVal.num 2),
     ("timestamp_start", UVal.num 1)] 1 2 rfl rfl rfl

/-- C10: `get_workspace_name` returns the cached workspace name whenever the
cache holds a truthy (non-empty) entry for the hashed API key, leaving the
cache unchanged; on a miss it stores the fetched name in the cache but
returns `None` instead of the fetched name. -/
theorem get_workspace_name_spec (md5hex fetchWorkspace : String → String)
    (api_key : String) (cache : WCache) :
    (truthyOptStr (cache.get
        ("workflows:api_key_to_workspace:" ++ md5hex api_key)) = true →
      (get_workspace_name md5hex fetchWorkspace api_key cache).1 =
          cache.get ("workflows:api_key_to_workspace:" ++ md5hex api_key) ∧
      (get_workspace_name md5hex fetchWorkspace api_key cache).2 = cache) ∧
    (truthyOptStr (cache.get
        ("workflows:api_key_to_workspace:" ++ md5hex api_key)) = false →
      (get_workspace_name md5hex fetchWorkspace api_key cache).1 =
          Option.none ∧
      ((get_workspace_name md5hex fetchWorkspace api_key cache).2).get
          ("workflows:api_key_to_workspace:" ++ md5hex api_key) =
        some (fetchWorkspace api_key)) := by
  constructor
  · intro h
    simp [get_workspace_name, h]
  · intro h
    refine ⟨by simp [get_workspace_name, h], ?_⟩
    have h2 : truthyOptStr (List.lookup
        ("workflows:api_key_to_workspace:" ++ md5hex api_key) cache.entries) =
        false := h
    simp [get_workspace_name, WCache.get, WCache.set, h2, List.lookup]

/-- Witness for `get_workspace_name_spec`: a miss on the empty cache returns
nothing and stores the fetched name. -/
theorem get_workspace_name_spec_witness :
    (get_workspace_name (fun _ => "deadbeef") (fun _ => "my-workspace")
        "key-1" ⟨[]⟩).1 = Option.none ∧
    ((get_workspace_name (fun _ => "deadbeef") (fun _ => "my-workspace")
        "key-1" ⟨[]⟩).2).get "workflows:api_key_to_workspace:deadbeef" =
      some "my-workspace" := by
  exact (get_workspace_name_spec (fun _ => "deadbeef")
    (fun _ => "my-workspace") "key-1" ⟨[]⟩).2 rfl
